import Mathlib

/-!
Verification of the soil-moisture redistribution core of DHSVM
(`DHSVM/sourcecode/UnsaturatedFlow.c`): the vertical drainage routine
`UnsaturatedFlow` and the lateral saturated-flow redistributor
`DistributeSatflow`.

The C code is embedded shallowly over `ℚ` (exact arithmetic in place of
C floats).  The C library function `pow` applied to
`(Moist[i]/Porosity[i], Exponent)` is transcendental and is therefore a
parameter `powf : ℚ → ℚ → ℚ` of the embedding; theorems that depend on its
value only assume what IEEE `pow` guarantees there (non-negativity on
non-negative bases).

A soil column is a list of explicit layers (index 0 = topmost) plus a deep
reservoir below them (`Moist[NSoilLayers]` in the C code, carried here as a
separate scalar together with its `Adjust[NSoilLayers]` factor).
-/

/-- One explicit soil layer: the per-layer entries of the parameter arrays
`RootDepth`, `Ks`, `PoreDist`, `Porosity`, `FCap`, `PercArea`, `Adjust`, and
the per-layer mutable state `Moist` and `Perc`. -/
structure Layer where
  rootDepth : ℚ
  ks : ℚ
  poreDist : ℚ
  porosity : ℚ
  fcap : ℚ
  percArea : ℚ
  adjust : ℚ
  moist : ℚ
  perc : ℚ
deriving Repr, DecidableEq

/-- Water volume (in m over the grid cell) held by one explicit layer:
`Moist[i] * RootDepth[i] * Adjust[i]`. -/
def layerVol (L : Layer) : ℚ := L.moist * (L.rootDepth * L.adjust)

/-- Total water volume over a list of explicit layers. -/
def totalVol (ls : List Layer) : ℚ := (ls.map layerVol).sum

/-- Thickness of the implicit deep layer, `UnsaturatedFlow.c` lines 130-132:
`DeepLayerDepth = TotalDepth - Σ RootDepth[i]`. -/
def deepLayerDepth (totalDepth : ℚ) (ls : List Layer) : ℚ :=
  totalDepth - (ls.map Layer.rootDepth).sum

/-- The sentinel value of the `InfiltOption` flag selecting the dynamic
infiltration mode (`InfiltOption == DYNAMIC` in the C code); the concrete
value of the enum constant is irrelevant to the embedding. -/
def DYNAMIC : ℤ := 1

/-- Intermediate values of one iteration of the drainage loop of
`UnsaturatedFlow` (lines 156-196), in the branch `Moist[i] > FCap[i]`:
the flux average (line 169), the field-capacity clamp (lines 176-177) and
the porosity push-through (lines 182-184). -/
def percAvg (dt : ℚ) (powf : ℚ → ℚ → ℚ) (L : Layer) : ℚ :=
  let exponent := 2 / L.poreDist + 3
  let drainage0 := if L.moist > L.porosity then L.ks
                   else L.ks * powf (L.moist / L.porosity) exponent
  let drainage := drainage0 * dt
  1/2 * (L.perc + drainage) * L.percArea

/-- The field-capacity clamp applied to the averaged flux (lines 171-177). -/
def percClamp (dt : ℚ) (powf : ℚ → ℚ → ℚ) (L : Layer) : ℚ :=
  let p := percAvg dt powf L
  let soilWater := L.rootDepth * L.moist * L.adjust
  let fieldCapacity := L.rootDepth * L.fcap * L.adjust
  if soilWater - p < fieldCapacity then soilWater - fieldCapacity else p

/-- The porosity push-through applied after the clamp (lines 182-184). -/
def percPush (dt : ℚ) (powf : ℚ → ℚ → ℚ) (L : Layer) : ℚ :=
  let p := percClamp dt powf L
  let maxSoilWater := L.rootDepth * L.porosity * L.adjust
  let soilWater := L.rootDepth * L.moist * L.adjust - p
  if soilWater > maxSoilWater then p + (soilWater - maxSoilWater) else p

/-- One iteration of the drainage loop of `UnsaturatedFlow`, lines 156-196,
acting on layer `i` whose `moist` field already includes the injection from
the layer above.  Returns the updated layer (new `Moist[i]`, and `Perc[i]`
rescaled back to a 1-d flux by line 195) together with the pre-rescale
percolation volume that line 189 adds to the layer below. -/
def drainLayer (dt : ℚ) (powf : ℚ → ℚ → ℚ) (L : Layer) : Layer × ℚ :=
  if L.moist > L.fcap then
    let p := percPush dt powf L
    ({ L with moist := L.moist - p / (L.rootDepth * L.adjust),
              perc := p / L.percArea }, p)
  else
    ({ L with perc := 0 / L.percArea }, 0)

/-- The drainage loop of `UnsaturatedFlow` (lines 156-198) over the layers
from top to bottom.  `inc` is the percolation volume arriving from the layer
above (0 for the first layer); line 189 adds it to the receiving layer's
moisture before that layer is processed.  The second component is
`DeepDrainage = Perc[NSoilLayers-1] * PercArea[NSoilLayers-1]` (line 198),
recomputed from the stored (rescaled) flux of the last layer. -/
def drainLoop (dt : ℚ) (powf : ℚ → ℚ → ℚ) (inc : ℚ) :
    List Layer → List Layer × ℚ
  | [] => ([], 0)
  | L :: rest =>
    let L1 := { L with moist := L.moist + inc / (L.rootDepth * L.adjust) }
    let p := drainLayer dt powf L1
    match rest with
    | [] => ([p.1], p.1.perc * p.1.percArea)
    | r :: rs =>
      let q := drainLoop dt powf p.2 (r :: rs)
      (p.1 :: q.1, q.2)

/-- Adds a water volume `v` to the moisture of the layer at index `k`
(`Moist[k] += v / (RootDepth[k] * Adjust[k])`, cf. lines 143 and 152);
out-of-range indices leave the list unchanged. -/
def addVolToLayer : List Layer → ℕ → ℚ → List Layer
  | [], _, _ => []
  | L :: rest, 0, v =>
    { L with moist := L.moist + v / (L.rootDepth * L.adjust) } :: rest
  | L :: rest, k+1, v => L :: addVolToLayer rest k v


/-- Modelled from the spec: the capping side effect of the external
`WaterTableDepth` function (not part of the sampled sources; `spec.md` §6:
"caps any layer's moisture at its porosity, displacing surplus").  The
surplus volume `up` arriving from the layers below is added to the deepest
layer first; any moisture above porosity is converted to a surplus volume
that moves to the layer above.  Returns the capped layers and the surplus
volume emerging above the topmost layer (the ponded volume). -/
def capUp : List Layer → ℚ → List Layer × ℚ
  | [], up => ([], up)
  | L :: rest, up =>
    let r := capUp rest up
    let m := L.moist + r.2 / (L.rootDepth * L.adjust)
    if m > L.porosity then
      ({ L with moist := L.porosity } :: r.1,
        (m - L.porosity) * (L.rootDepth * L.adjust))
    else
      ({ L with moist := m } :: r.1, 0)

/-- Modelled from the spec: the saturated thickness measured from the bottom
of a bottom-first list of (pseudo-)layers — full thickness while a layer is
at porosity, a partial fill proportional to `(moist - fcap)/(porosity -
fcap)` at the first unsaturated layer.  Only its value relative to
`TotalDepth` matters to the claims; the exact non-ponding formula of the
external `WaterTableDepth` is not specified by `spec.md`. -/
def satThickness : List Layer → ℚ
  | [] => 0
  | L :: rest =>
    if L.porosity ≤ L.moist then L.rootDepth + satThickness rest
    else if L.fcap < L.moist then
      (L.moist - L.fcap) / (L.porosity - L.fcap) * L.rootDepth
    else 0

/-- Modelled from the spec: the external `WaterTableDepth` function called at
line 207 of `UnsaturatedFlow.c` (its source is not among the sampled files;
`spec.md` §6 specifies: it returns the updated table depth, as a side effect
caps any layer's moisture at its porosity displacing surplus, and a negative
returned depth means ponding, whose magnitude line 211 adds to runoff).  The
deep reservoir is treated as a pseudo-layer of thickness `deepDepth` and
adjustment `deepAdjust`; following the convention of `DistributeSatflow`
(lines 247-248) its porosity and field capacity are those of the deepest
explicit layer.  Returns (capped layers, capped deep moisture, depth); the
depth is `-(ponded volume)` when ponding occurs and otherwise a non-negative
depth to the top of the saturated zone of the capped profile. -/
def waterTableDepth (totalDepth : ℚ) (layers : List Layer)
    (deepAdjust deepMoist dPor dFCap : ℚ) : List Layer × ℚ × ℚ :=
  let deepDepth := deepLayerDepth totalDepth layers
  let upD := if deepMoist > dPor then (deepMoist - dPor) * (deepDepth * deepAdjust) else 0
  let deep1 := if deepMoist > dPor then dPor else deepMoist
  let c := capUp layers upD
  let pond := c.2
  let deepPseudo : Layer := ⟨deepDepth, 0, 0, dPor, dFCap, 0, deepAdjust, deep1, 0⟩
  let depth :=
    if 0 < pond then -pond
    else max 0 (totalDepth - satThickness (deepPseudo :: c.1.reverse))
  (c.1, deep1, depth)

/-- The outputs of `UnsaturatedFlow` (the objects the C function mutates
through pointers: `Moist` including its deep entry, `Perc` carried inside
the layers, `TableDepth` and `Runoff`). -/
structure UnsatResult where
  layers : List Layer
  deepMoist : ℚ
  tableDepth : ℚ
  runoff : ℚ
deriving Repr, DecidableEq

/-- Lines 134-145 of `UnsaturatedFlow`: routing of the roadbed/channel
infiltration.  Returns (layers, deep moisture, runoff) after the step.  When
`TableDepth ≤ BankHeight` the roadbed infiltration becomes runoff; otherwise
it is added to `Moist[CutBankZone]`, to the deep reservoir when `CutBankZone
== NSoilLayers`, and — when `CutBankZone` is negative — to nothing at all
(no `else` branch exists at line 144). -/
def roadbedStep (roadbedInfiltration : ℚ) (totalDepth : ℚ) (layers : List Layer)
    (deepAdjust : ℚ) (cutBankZone : ℤ) (bankHeight : ℚ)
    (tableDepth runoff deepMoist : ℚ) : List Layer × ℚ × ℚ :=
  let deepDepth := deepLayerDepth totalDepth layers
  if tableDepth ≤ bankHeight then (layers, deepMoist, runoff + roadbedInfiltration)
  else if cutBankZone = (layers.length : ℤ) then
    (layers, deepMoist + roadbedInfiltration / (deepDepth * deepAdjust), runoff)
  else if 0 ≤ cutBankZone then
    (addVolToLayer layers cutBankZone.toNat roadbedInfiltration, deepMoist, runoff)
  else (layers, deepMoist, runoff)

/-- Lines 146-153 of `UnsaturatedFlow`: routing of the surface infiltration.
Returns (layers, runoff) after the step; the mutation of the local
`Infiltration` variable in the `DYNAMIC` branch is tracked separately by
`infiltLocalAfterSurface`. -/
def surfaceStep (infiltration : ℚ) (layers : List Layer)
    (tableDepth runoff : ℚ) : List Layer × ℚ :=
  if tableDepth ≤ 0 then (layers, runoff + infiltration)
  else (addVolToLayer layers 0 infiltration, runoff)

/-- The value of the local by-value parameter `Infiltration` after lines
146-153 (it is zeroed in `DYNAMIC` mode when the water table is at or above
the surface, line 149). -/
def infiltLocalAfterSurface (infiltration : ℚ) (tableDepth : ℚ)
    (infiltOption : ℤ) : ℚ :=
  if tableDepth ≤ 0 then (if infiltOption = DYNAMIC then 0 else infiltration)
  else infiltration

/-- Lines 134-153 of `UnsaturatedFlow` combined: the roadbed step followed by
the surface-infiltration step.  Returns (layers, deep moisture, runoff). -/
def infilStage (infiltration roadbedInfiltration totalDepth : ℚ)
    (layers : List Layer) (deepAdjust : ℚ) (cutBankZone : ℤ)
    (bankHeight : ℚ) (tableDepth runoff deepMoist : ℚ) :
    List Layer × ℚ × ℚ :=
  let rb := roadbedStep roadbedInfiltration totalDepth layers deepAdjust
              cutBankZone bankHeight tableDepth runoff deepMoist
  let s := surfaceStep infiltration rb.1 tableDepth rb.2.2
  (s.1, rb.2.1, s.2)

/-- The drainage loop of `UnsaturatedFlow` applied to the column after the
infiltration steps: the layers it produces and `DeepDrainage`. -/
def drainStage (dt : ℚ) (powf : ℚ → ℚ → ℚ)
    (infiltration roadbedInfiltration totalDepth : ℚ) (layers : List Layer)
    (deepAdjust : ℚ) (cutBankZone : ℤ) (bankHeight : ℚ)
    (tableDepth runoff deepMoist : ℚ) : List Layer × ℚ :=
  drainLoop dt powf 0
    (infilStage infiltration roadbedInfiltration totalDepth layers deepAdjust
      cutBankZone bankHeight tableDepth runoff deepMoist).1

/-- The call to the external `WaterTableDepth` at line 207: the capped
layers, the capped deep moisture, and the recomputed table depth (whose
negative part lines 210-219 convert to runoff). -/
def wtdStage (dt : ℚ) (powf : ℚ → ℚ → ℚ)
    (infiltration roadbedInfiltration totalDepth : ℚ) (layers : List Layer)
    (deepAdjust : ℚ) (cutBankZone : ℤ) (bankHeight : ℚ)
    (tableDepth runoff deepMoist : ℚ) : List Layer × ℚ × ℚ :=
  let s := infilStage infiltration roadbedInfiltration totalDepth layers
             deepAdjust cutBankZone bankHeight tableDepth runoff deepMoist
  let d := drainStage dt powf infiltration roadbedInfiltration totalDepth
             layers deepAdjust cutBankZone bankHeight tableDepth runoff
             deepMoist
  let deep2 := s.2.1 + d.2 / (deepLayerDepth totalDepth layers * deepAdjust)
  let dPor := ((layers.getLast?).map Layer.porosity).getD 0
  let dFCap := ((layers.getLast?).map Layer.fcap).getD 0
  waterTableDepth totalDepth d.1 deepAdjust deep2 dPor dFCap

/-- Shallow embedding of `UnsaturatedFlow` (`UnsaturatedFlow.c` lines
109-220).  The unused C parameters `DX`, `DY`, `Area` are omitted; `SatFlow`
is kept because it is part of the C signature although the body never reads
it.  `powf` stands for the C library `pow` used at line 166.  The final
value of the local `Infiltration` variable (mutated again in `DYNAMIC` mode
at lines 212-217) is bound but — exactly as in the C code, where the local
dies at return — contributes to no output. -/
def unsaturatedFlow (dt : ℚ) (powf : ℚ → ℚ → ℚ)
    (infiltration roadbedInfiltration satFlow : ℚ) (totalDepth : ℚ)
    (layers : List Layer) (deepAdjust : ℚ) (cutBankZone : ℤ)
    (bankHeight : ℚ) (tableDepth runoff deepMoist : ℚ)
    (infiltOption : ℤ) : UnsatResult :=
  let s := infilStage infiltration roadbedInfiltration totalDepth layers
             deepAdjust cutBankZone bankHeight tableDepth runoff deepMoist
  let infilt1 := infiltLocalAfterSurface infiltration tableDepth infiltOption
  let w := wtdStage dt powf infiltration roadbedInfiltration totalDepth layers
             deepAdjust cutBankZone bankHeight tableDepth runoff deepMoist
  let td1 := w.2.2
  if td1 < 0 then
    let infilt2 := if infiltOption = DYNAMIC then
          (if infilt1 > -td1 then infilt1 + td1 else 0) else infilt1
    { layers := w.1, deepMoist := w.2.1, tableDepth := 0,
      runoff := s.2.2 + -td1 }
  else
    { layers := w.1, deepMoist := w.2.1, tableDepth := td1, runoff := s.2.2 }

/-- The outputs of `DistributeSatflow` together with the final value of the
local `SatFlow` variable, which lines 341-344 test: a positive remainder is
added to runoff and the `assert(SatFlow >= 0.0)` traps on a negative one. -/
structure SatResult where
  layers : List Layer
  deepMoist : ℚ
  runoff : ℚ
  satFlow : ℚ
deriving Repr, DecidableEq

/-- The extraction loop of `DistributeSatflow` (lines 270-292), top to
bottom.  Arguments: remaining layers, current `SatFlow` (negative on entry),
current cumulative `Depth`.  Returns (updated layers, `SatFlow`, `Depth`).
The loop guard `Depth < TotalDepth` is checked before each iteration and the
loop breaks once `SatFlow` reaches exactly zero (line 290-291). -/
def extractLoop (totalDepth tableDepth : ℚ) :
    List Layer → ℚ → ℚ → List Layer × ℚ × ℚ
  | [], sf, depth => ([], sf, depth)
  | L :: rest, sf, depth =>
    if depth < totalDepth then
      let depth1 := if L.rootDepth < totalDepth - depth then depth + L.rootDepth
                    else totalDepth
      let ava := if depth1 > tableDepth then
                   (if depth1 - tableDepth > L.rootDepth then
                      (L.porosity - L.fcap) * L.rootDepth * L.adjust
                    else (L.porosity - L.fcap) * (depth1 - tableDepth) * L.adjust)
                 else 0
      let ex := if -sf > ava then -ava else sf
      let L1 := { L with moist := L.moist + ex / (L.rootDepth * L.adjust) }
      let sf1 := sf - ex
      if sf1 = 0 then (L1 :: rest, sf1, depth1)
      else
        let r := extractLoop totalDepth tableDepth rest sf1 depth1
        (L1 :: r.1, r.2)
    else (L :: rest, sf, depth)

/-- The sum of the `AvaWater` values the extraction loop would compute over
the given layers starting from cumulative depth `depth` (it depends only on
the geometry, not on `SatFlow`). -/
def availLoop (totalDepth tableDepth : ℚ) : List Layer → ℚ → ℚ
  | [], _ => 0
  | L :: rest, depth =>
    if depth < totalDepth then
      let depth1 := if L.rootDepth < totalDepth - depth then depth + L.rootDepth
                    else totalDepth
      let ava := if depth1 > tableDepth then
                   (if depth1 - tableDepth > L.rootDepth then
                      (L.porosity - L.fcap) * L.rootDepth * L.adjust
                    else (L.porosity - L.fcap) * (depth1 - tableDepth) * L.adjust)
                 else 0
      ava + availLoop totalDepth tableDepth rest depth1
    else 0

/-- The cumulative `Depth` after the extraction loop runs over the given
layers without breaking early. -/
def depthAfter (totalDepth : ℚ) : List Layer → ℚ → ℚ
  | [], depth => depth
  | L :: rest, depth =>
    if depth < totalDepth then
      let depth1 := if L.rootDepth < totalDepth - depth then depth + L.rootDepth
                    else totalDepth
      depthAfter totalDepth rest depth1
    else depth

/-- The `DeepAvaWater` value of the deep-extraction block (lines 294-304):
zero when the explicit layers already span the whole profile, and otherwise
computed with `Depth` set to `TotalDepth`. -/
def deepAvaWater (totalDepth tableDepth dPor dFCap deepDepth deepAdjust : ℚ)
    (depth : ℚ) : ℚ :=
  if depth < totalDepth then
    (if totalDepth - tableDepth > deepDepth then
       (dPor - dFCap) * deepDepth * deepAdjust
     else (dPor - dFCap) * (totalDepth - tableDepth) * deepAdjust)
  else 0

/-- The injection loop of `DistributeSatflow` (lines 324-337), which walks
the explicit layers from the bottom up; the argument list is therefore the
reversed layer list.  In the C source the guard at line 329,
`if (Depth > (TotalDepth - *TableDepth));`, is terminated by a stray
semicolon, so the block that follows it executes unconditionally; the
embedding reproduces this faithfully.  Returns (updated reversed layers,
`SatFlow`, `Depth`); the loop breaks once `SatFlow` reaches exactly zero. -/
def injectLoopRev : List Layer → ℚ → ℚ → List Layer × ℚ × ℚ
  | [], sf, depth => ([], sf, depth)
  | L :: rest, sf, depth =>
    let depth1 := depth + L.rootDepth
    let gap := (L.porosity - L.moist) * L.rootDepth * L.adjust
    let ex := if sf > gap then gap else sf
    let sf1 := sf - ex
    let L1 := { L with moist := L.moist + ex / (L.rootDepth * L.adjust) }
    if sf1 = 0 then (L1 :: rest, sf1, depth1)
    else
      let r := injectLoopRev rest sf1 depth1
      (L1 :: r.1, r.2)

/-- The deep-extraction block of `DistributeSatflow` (lines 294-309), taking
the `SatFlow` and cumulative `Depth` the extraction loop left behind.
Returns (deep moisture, `SatFlow`, `Depth`). -/
def deepExtractStep (totalDepth tableDepth dPor dFCap deepDepth deepAdjust
    deepMoist sf depth : ℚ) : ℚ × ℚ × ℚ :=
  if sf < 0 then
    let dAva := deepAvaWater totalDepth tableDepth dPor dFCap deepDepth
                  deepAdjust depth
    let dEx := if -sf > dAva then -dAva else sf
    (deepMoist + dEx / (deepDepth * deepAdjust), sf - dEx,
      if depth < totalDepth then totalDepth else depth)
  else (deepMoist, sf, depth)

/-- The injection branch of `DistributeSatflow` (lines 312-339): the deep
reservoir block followed, while flow remains, by the bottom-up layer loop.
Both blocks run regardless of the water-table position because the guards at
lines 317 and 329 are statements terminated by a stray semicolon.  Returns
(layers, deep moisture, `SatFlow`). -/
def injectStep (layers : List Layer) (totalDepth dPor deepDepth deepAdjust
    deepMoist sf depth : ℚ) : List Layer × ℚ × ℚ :=
  if sf > 0 then
    let dGap := (dPor - deepMoist) * deepDepth * deepAdjust
    let dEx := if sf > dGap then dGap else sf
    let sfD := sf - dEx
    let dm := deepMoist + dEx / (deepDepth * deepAdjust)
    if sfD > 0 then
      let r := injectLoopRev layers.reverse sfD (depth + deepDepth)
      (r.1.reverse, dm, r.2.1)
    else (layers, dm, sfD)
  else (layers, deepMoist, sf)

/-- Shallow embedding of `DistributeSatflow` (`UnsaturatedFlow.c` lines
225-346), assembled from the extraction loop, the deep-extraction block and
the injection branch; lines 341-342 add a positive remainder to runoff. -/
def distributeSatflow (satFlow totalDepth : ℚ) (layers : List Layer)
    (deepAdjust : ℚ) (tableDepth runoff deepMoist : ℚ) : SatResult :=
  let deepPorosity := ((layers.getLast?).map Layer.porosity).getD 0
  let deepFCap := ((layers.getLast?).map Layer.fcap).getD 0
  let deepDepth := deepLayerDepth totalDepth layers
  let e := if satFlow < 0 then extractLoop totalDepth tableDepth layers satFlow 0
           else (layers, satFlow, 0)
  let de := deepExtractStep totalDepth tableDepth deepPorosity deepFCap
              deepDepth deepAdjust deepMoist e.2.1 e.2.2
  let inj := injectStep e.1 totalDepth deepPorosity deepDepth deepAdjust de.1
               de.2.1 de.2.2
  let runoff1 := if inj.2.2 > 0 then runoff + inj.2.2 else runoff
  { layers := inj.1, deepMoist := inj.2.1, runoff := runoff1,
    satFlow := inj.2.2 }

/-- The condition under which the `assert(SatFlow >= 0.0)` at line 344 of
`DistributeSatflow` fails. -/
def distributeSatflowTraps (satFlow totalDepth : ℚ) (layers : List Layer)
    (deepAdjust : ℚ) (tableDepth runoff deepMoist : ℚ) : Prop :=
  (distributeSatflow satFlow totalDepth layers deepAdjust tableDepth runoff
    deepMoist).satFlow < 0

/-- The total available water the extraction pass can draw: the explicit
layers' `AvaWater` plus the deep reservoir's `DeepAvaWater`. -/
def totalAvail (totalDepth tableDepth : ℚ) (layers : List Layer)
    (deepAdjust : ℚ) : ℚ :=
  let deepPorosity := ((layers.getLast?).map Layer.porosity).getD 0
  let deepFCap := ((layers.getLast?).map Layer.fcap).getD 0
  let deepDepth := deepLayerDepth totalDepth layers
  availLoop totalDepth tableDepth layers 0 +
    deepAvaWater totalDepth tableDepth deepPorosity deepFCap deepDepth
      deepAdjust (depthAfter totalDepth layers 0)

/-! ## Claim C7: zero lateral flow is the identity -/

/-- C7. Calling `DistributeSatflow` with `SatFlow = 0` is the identity on the
observable state: no `Moist` entry (explicit or deep) changes, the runoff
accumulator is unchanged, and the final `SatFlow` is `0`, so the
`assert(SatFlow >= 0.0)` does not trap. -/
theorem distributeSatflow_zero_identity (totalDepth : ℚ) (layers : List Layer)
    (deepAdjust tableDepth runoff deepMoist : ℚ) :
    distributeSatflow 0 totalDepth layers deepAdjust tableDepth runoff deepMoist
      = ⟨layers, deepMoist, runoff, 0⟩ ∧
    ¬ distributeSatflowTraps 0 totalDepth layers deepAdjust tableDepth runoff
        deepMoist := by
  constructor
  · simp [distributeSatflow, deepExtractStep, injectStep]
  · simp [distributeSatflowTraps, distributeSatflow, deepExtractStep,
      injectStep]

/-! ## Claim C9: the infiltration-handling mode has no observable effect -/

/-- C9. The outputs of `UnsaturatedFlow` (final `Moist` including the deep
entry, `Perc`, `TableDepth`, `Runoff`) are identical for every value of
`InfiltOption`: the `DYNAMIC` branches at lines 148-149 and 212-217 mutate
only the by-value local `Infiltration`, which is never read again before the
function returns. -/
theorem unsaturatedFlow_infiltOption_irrelevant (dt : ℚ) (powf : ℚ → ℚ → ℚ)
    (infiltration roadbedInfiltration satFlow totalDepth : ℚ)
    (layers : List Layer) (deepAdjust : ℚ) (cutBankZone : ℤ)
    (bankHeight : ℚ) (tableDepth runoff deepMoist : ℚ)
    (opt1 opt2 : ℤ) :
    unsaturatedFlow dt powf infiltration roadbedInfiltration satFlow
        totalDepth layers deepAdjust cutBankZone bankHeight tableDepth runoff
        deepMoist opt1 =
      unsaturatedFlow dt powf infiltration roadbedInfiltration satFlow
        totalDepth layers deepAdjust cutBankZone bankHeight tableDepth runoff
        deepMoist opt2 := by
  rfl

/-! ## Claim C2: the injection guards are disabled by stray semicolons -/

/-- C2 (failing input).  A one-layer column of total depth 2 with the water
table at the very bottom (`TableDepth = TotalDepth = 2`), so the saturated
thickness is zero and, per the claim, no injected water may reach the deep
reservoir.  Injecting `SatFlow = 1/10` nevertheless raises the deep
reservoir's moisture from `1/5` to `3/10`: the guards at lines 317 and 329
of `UnsaturatedFlow.c` are statements terminated by a stray `;`, so the
injection bodies run unconditionally. -/
theorem distributeSatflow_injects_above_saturated_zone :
    (distributeSatflow (1/10) 2 [⟨1, 0, 0, 1/2, 1/5, 0, 1, 1/5, 0⟩]
        1 2 0 (1/5)).deepMoist = 3/10 ∧ (3/10 : ℚ) ≠ 1/5 := by
  constructor
  · norm_num [distributeSatflow, deepExtractStep, injectStep, extractLoop,
      deepAvaWater, deepLayerDepth, injectLoopRev]
  · norm_num

/-! ## Claim C8: the concrete extraction scenario -/

/-- C8. The 2-layer extraction scenario: thicknesses `[1/2, 1]`, total depth
`2`, porosities `[9/20, 2/5]`, field capacities `[1/5, 1/4]`, all adjustment
factors `1`, table depth `3/10`, `SatFlow = -1/50`.  The layer straddling the
water table is layer 0 (`0.3 < 0.5`); its available water is
`(9/20 - 1/5) * (1/2 - 3/10) * 1 = 1/20 ≥ 1/50`, so the whole extraction is
drawn from it: its moisture drops by `(1/50)/(1/2) = 1/25`, no remainder
reaches layer 1 or the deep reservoir, the remaining flow is `0` (total
extracted magnitude `1/50 = 0.02`), and the runoff is unchanged. -/
theorem distributeSatflow_extraction_scenario (m0 m1 md r : ℚ) :
    distributeSatflow (-(1/50)) 2
        [⟨1/2, 0, 0, 9/20, 1/5, 0, 1, m0, 0⟩, ⟨1, 0, 0, 2/5, 1/4, 0, 1, m1, 0⟩]
        1 (3/10) r md =
      ⟨[⟨1/2, 0, 0, 9/20, 1/5, 0, 1, m0 - 1/25, 0⟩,
        ⟨1, 0, 0, 2/5, 1/4, 0, 1, m1, 0⟩], md, r, 0⟩ := by
  norm_num [distributeSatflow, deepExtractStep, injectStep, extractLoop,
    deepAvaWater, deepLayerDepth, injectLoopRev]
  ring

/-! ## Claim C10: roadbed infiltration is dropped for a negative cut-bank index -/

/-- Helper: when the water table is below the cut (`BankHeight < TableDepth`)
and `CutBankZone` is negative, the roadbed step of `UnsaturatedFlow` (lines
136-145) changes nothing: no branch of the `if`/`else if` chain applies. -/
theorem roadbedStep_neg_cutBankZone (roadbedInfiltration totalDepth : ℚ)
    (layers : List Layer) (deepAdjust : ℚ) (cutBankZone : ℤ)
    (bankHeight tableDepth runoff deepMoist : ℚ)
    (hcb : cutBankZone < 0) (hbh : bankHeight < tableDepth) :
    roadbedStep roadbedInfiltration totalDepth layers deepAdjust cutBankZone
        bankHeight tableDepth runoff deepMoist =
      (layers, deepMoist, runoff) := by
  have h1 : ¬ tableDepth ≤ bankHeight := not_le.mpr hbh
  have h2 : cutBankZone ≠ (layers.length : ℤ) := by
    intro h
    exact absurd (h ▸ hcb) (by omega)
  have h3 : ¬ (0 : ℤ) ≤ cutBankZone := not_le.mpr hcb
  simp [roadbedStep, h1, h2, h3]

/-- C10. When the water table is below the cut elevation
(`TableDepth > BankHeight`) but `CutBankZone < 0` (hence also different from
`NSoilLayers`), `UnsaturatedFlow` adds the roadbed infiltration to no layer,
not to the deep reservoir and not to runoff: every output is exactly what it
would be with zero roadbed infiltration — the water is silently dropped from
the balance. -/
theorem unsaturatedFlow_neg_cutBankZone_drops_roadbed (dt : ℚ)
    (powf : ℚ → ℚ → ℚ) (infiltration roadbedInfiltration satFlow totalDepth : ℚ)
    (layers : List Layer) (deepAdjust : ℚ) (cutBankZone : ℤ)
    (bankHeight : ℚ) (tableDepth runoff deepMoist : ℚ) (infiltOption : ℤ)
    (hcb : cutBankZone < 0) (hbh : bankHeight < tableDepth) :
    unsaturatedFlow dt powf infiltration roadbedInfiltration satFlow
        totalDepth layers deepAdjust cutBankZone bankHeight tableDepth runoff
        deepMoist infiltOption =
      unsaturatedFlow dt powf infiltration 0 satFlow totalDepth layers
        deepAdjust cutBankZone bankHeight tableDepth runoff deepMoist
        infiltOption := by
  simp only [unsaturatedFlow, wtdStage, drainStage, infilStage,
    roadbedStep_neg_cutBankZone _ _ _ _ _ _ _ _ _ hcb hbh]

/-- C10 witness: a concrete one-layer column with `CutBankZone = -1` and the
table below the cut; dropping `RoadbedInfiltration = 7/10` leaves every
output unchanged. -/
theorem unsaturatedFlow_neg_cutBankZone_drops_roadbed_witness :
    ((-1 : ℤ) < 0 ∧ (1 : ℚ) < 2) ∧
    unsaturatedFlow 1 (fun _ _ => 0) 0 (7/10) 0 3
        [⟨1, 0, 1, 1/2, 1/5, 1, 1, 1/5, 0⟩] 1 (-1) 1 2 0 (1/5) 0 =
      unsaturatedFlow 1 (fun _ _ => 0) 0 0 0 3
        [⟨1, 0, 1, 1/2, 1/5, 1, 1, 1/5, 0⟩] 1 (-1) 1 2 0 (1/5) 0 :=
  ⟨⟨by norm_num, by norm_num⟩,
    unsaturatedFlow_neg_cutBankZone_drops_roadbed 1 (fun _ _ => 0) 0 (7/10) 0
      3 [⟨1, 0, 1, 1/2, 1/5, 1, 1, 1/5, 0⟩] 1 (-1) 1 2 0 (1/5) 0
      (by norm_num) (by norm_num)⟩

/-! ## Claim C5: the table depth is clamped and ponding becomes runoff -/

/-- C5. On exit from `UnsaturatedFlow` the table depth is non-negative, and
whenever the recomputed table depth (the value the external
`WaterTableDepth` returns at line 207) is negative, the runoff accumulator
ends at exactly its pre-check value plus the magnitude of that negative
depth, and the returned table depth is clamped to `0` (lines 210-219). -/
theorem unsaturatedFlow_tableDepth_clamp (dt : ℚ) (powf : ℚ → ℚ → ℚ)
    (infiltration roadbedInfiltration satFlow totalDepth : ℚ)
    (layers : List Layer) (deepAdjust : ℚ) (cutBankZone : ℤ)
    (bankHeight : ℚ) (tableDepth runoff deepMoist : ℚ) (infiltOption : ℤ) :
    0 ≤ (unsaturatedFlow dt powf infiltration roadbedInfiltration satFlow
        totalDepth layers deepAdjust cutBankZone bankHeight tableDepth runoff
        deepMoist infiltOption).tableDepth ∧
    ((wtdStage dt powf infiltration roadbedInfiltration totalDepth layers
        deepAdjust cutBankZone bankHeight tableDepth runoff deepMoist).2.2 < 0 →
      (unsaturatedFlow dt powf infiltration roadbedInfiltration satFlow
          totalDepth layers deepAdjust cutBankZone bankHeight tableDepth
          runoff deepMoist infiltOption).runoff =
        (infilStage infiltration roadbedInfiltration totalDepth layers
          deepAdjust cutBankZone bankHeight tableDepth runoff deepMoist).2.2 +
        -(wtdStage dt powf infiltration roadbedInfiltration totalDepth layers
            deepAdjust cutBankZone bankHeight tableDepth runoff
            deepMoist).2.2 ∧
      (unsaturatedFlow dt powf infiltration roadbedInfiltration satFlow
          totalDepth layers deepAdjust cutBankZone bankHeight tableDepth
          runoff deepMoist infiltOption).tableDepth = 0) := by
  by_cases h : (wtdStage dt powf infiltration roadbedInfiltration totalDepth
      layers deepAdjust cutBankZone bankHeight tableDepth runoff
      deepMoist).2.2 < 0
  · refine ⟨?_, fun _ => ⟨?_, ?_⟩⟩ <;> simp [unsaturatedFlow, h]
  · refine ⟨?_, fun h' => absurd h' h⟩
    simp only [unsaturatedFlow]
    rw [if_neg h]
    exact not_lt.mp h

/-- C5 witness: surface infiltration `1/2` on a one-layer column of total
depth `3/2` floods it; the recomputed table depth is `-2/5`, the runoff ends
at `0 + 2/5` and the returned table depth is `0`. -/
theorem unsaturatedFlow_tableDepth_clamp_witness :
    (wtdStage 1 (fun _ _ => 0) (1/2) 0 (3/2)
        [⟨1, 0, 1, 1/2, 1/5, 1, 1, 2/5, 0⟩] 1 (-1) 0 1 0 (1/2)).2.2 < 0 ∧
    ((unsaturatedFlow 1 (fun _ _ => 0) (1/2) 0 0 (3/2)
        [⟨1, 0, 1, 1/2, 1/5, 1, 1, 2/5, 0⟩] 1 (-1) 0 1 0 (1/2) 0).runoff =
      (infilStage (1/2) 0 (3/2) [⟨1, 0, 1, 1/2, 1/5, 1, 1, 2/5, 0⟩] 1 (-1) 0
        1 0 (1/2)).2.2 +
      -(wtdStage 1 (fun _ _ => 0) (1/2) 0 (3/2)
          [⟨1, 0, 1, 1/2, 1/5, 1, 1, 2/5, 0⟩] 1 (-1) 0 1 0 (1/2)).2.2 ∧
    (unsaturatedFlow 1 (fun _ _ => 0) (1/2) 0 0 (3/2)
        [⟨1, 0, 1, 1/2, 1/5, 1, 1, 2/5, 0⟩] 1 (-1) 0 1 0 (1/2) 0).tableDepth
      = 0) :=
  ⟨by norm_num [wtdStage, drainStage, infilStage, roadbedStep, surfaceStep,
      addVolToLayer, drainLoop, drainLayer, percPush, percClamp, percAvg,
      waterTableDepth, capUp, satThickness, deepLayerDepth],
    (unsaturatedFlow_tableDepth_clamp 1 (fun _ _ => 0) (1/2) 0 0 (3/2)
        [⟨1, 0, 1, 1/2, 1/5, 1, 1, 2/5, 0⟩] 1 (-1) 0 1 0 (1/2) 0).2
      (by norm_num [wtdStage, drainStage, infilStage, roadbedStep,
        surfaceStep, addVolToLayer, drainLoop, drainLayer, percPush,
        percClamp, percAvg, waterTableDepth, capUp, satThickness,
        deepLayerDepth])⟩

/-! ## Claim C4: drainage never draws a layer below field capacity -/

/-- C4. For a layer processed by the drainage branch of the loop (its entry
moisture — including any injection from the layer above — exceeds field
capacity, so `Perc[i]` is computed), the moisture after the drainage step is
at least the field capacity, given `Porosity ≥ FCap`, `RootDepth > 0` and
`Adjust > 0`: the clamp at lines 176-177 guarantees it exactly. -/
theorem drainLayer_keeps_fcap (dt : ℚ) (powf : ℚ → ℚ → ℚ) (L : Layer)
    (hm : L.fcap < L.moist) (hpf : L.fcap ≤ L.porosity)
    (hR : 0 < L.rootDepth) (hA : 0 < L.adjust) :
    L.fcap ≤ ((drainLayer dt powf L).1).moist := by
  have hRA : 0 < L.rootDepth * L.adjust := mul_pos hR hA
  have hFM : L.rootDepth * L.fcap * L.adjust ≤
      L.rootDepth * L.porosity * L.adjust := by nlinarith
  have hS : (L.moist - L.fcap) * (L.rootDepth * L.adjust) =
      L.rootDepth * L.moist * L.adjust - L.rootDepth * L.fcap * L.adjust := by
    ring
  unfold drainLayer
  rw [if_pos hm]
  show L.fcap ≤ L.moist - percPush dt powf L / (L.rootDepth * L.adjust)
  rw [le_sub_comm, div_le_iff₀ hRA]
  unfold percPush percClamp
  simp only []
  split_ifs with h1 h2 h3 <;> linarith

/-- C4 witness: a concrete layer above field capacity; after the drainage
step the moisture (here unchanged, `2/5`) is still at least `1/5`. -/
theorem drainLayer_keeps_fcap_witness :
    ((1 : ℚ)/5 < 2/5 ∧ (1 : ℚ)/5 ≤ 1/2 ∧ (0 : ℚ) < 1) ∧
    (1 : ℚ)/5 ≤ ((drainLayer 1 (fun _ _ => 0)
      ⟨1, 0, 1, 1/2, 1/5, 1, 1, 2/5, 0⟩).1).moist :=
  ⟨⟨by norm_num, by norm_num, by norm_num⟩,
    drainLayer_keeps_fcap 1 (fun _ _ => 0) ⟨1, 0, 1, 1/2, 1/5, 1, 1, 2/5, 0⟩
      (by norm_num) (by norm_num) (by norm_num) (by norm_num)⟩

/-! ## Claim C6: every assignment to `Perc[i]` is non-negative -/

/-- Helper: the flux average of line 169 is non-negative when the carried
flux, the conductivity, the timestep and the area fraction are. -/
theorem percAvg_nonneg (dt : ℚ) (powf : ℚ → ℚ → ℚ) (L : Layer)
    (hperc : 0 ≤ L.perc) (hks : 0 ≤ L.ks) (hpa : 0 ≤ L.percArea)
    (hdt : 0 ≤ dt) (hpow : ∀ x y, 0 ≤ powf x y) :
    0 ≤ percAvg dt powf L := by
  unfold percAvg
  split_ifs with h
  · have hd : 0 ≤ L.ks * dt := mul_nonneg hks hdt
    have : (0 : ℚ) ≤ 1/2 * (L.perc + L.ks * dt) := by
      apply mul_nonneg (by norm_num) (add_nonneg hperc hd)
    exact mul_nonneg this hpa
  · have hd0 : 0 ≤ L.ks * powf (L.moist / L.porosity) (2 / L.poreDist + 3) :=
      mul_nonneg hks (hpow _ _)
    have hd : 0 ≤ L.ks * powf (L.moist / L.porosity) (2 / L.poreDist + 3) * dt :=
      mul_nonneg hd0 hdt
    have : (0 : ℚ) ≤ 1/2 *
        (L.perc + L.ks * powf (L.moist / L.porosity) (2 / L.poreDist + 3) * dt) := by
      apply mul_nonneg (by norm_num) (add_nonneg hperc hd)
    exact mul_nonneg this hpa

/-- C6. Given a non-negative carried flux `Perc[i]`, `Ks[i] ≥ 0`,
`PercArea[i] > 0`, `Porosity ≥ FCap`, non-negative layer geometry and
timestep, and a `pow` that is non-negative (as the C `pow` is on the
non-negative bases it receives here), every assignment to `Perc[i]` in the
drainage loop yields a non-negative value: the flux average (line 169), the
field-capacity clamp (line 177) and the push-through (line 184) in the
drainage branch, and the final stored value after the area rescale of line
195 — which is `0` in the at-or-below-field-capacity branch (line 192). -/
theorem drainLayer_perc_nonneg (dt : ℚ) (powf : ℚ → ℚ → ℚ) (L : Layer)
    (hperc : 0 ≤ L.perc) (hks : 0 ≤ L.ks) (hpa : 0 < L.percArea)
    (hpf : L.fcap ≤ L.porosity) (hR : 0 ≤ L.rootDepth) (hA : 0 ≤ L.adjust)
    (hdt : 0 ≤ dt) (hpow : ∀ x y, 0 ≤ powf x y) :
    (L.fcap < L.moist →
      0 ≤ percAvg dt powf L ∧ 0 ≤ percClamp dt powf L ∧
      0 ≤ percPush dt powf L) ∧
    0 ≤ ((drainLayer dt powf L).1).perc ∧
    (L.moist ≤ L.fcap → ((drainLayer dt powf L).1).perc = 0) := by
  have h1 : 0 ≤ percAvg dt powf L :=
    percAvg_nonneg dt powf L hperc hks hpa.le hdt hpow
  have h2 : L.fcap < L.moist → 0 ≤ percClamp dt powf L := by
    intro hm
    unfold percClamp
    simp only []
    split_ifs with hc
    · have : 0 ≤ (L.moist - L.fcap) * (L.rootDepth * L.adjust) :=
        mul_nonneg (by linarith) (mul_nonneg hR hA)
      nlinarith
    · exact h1
  have h3 : L.fcap < L.moist → 0 ≤ percPush dt powf L := by
    intro hm
    unfold percPush
    simp only []
    split_ifs with hc
    · have := h2 hm
      linarith
    · exact h2 hm
  refine ⟨fun hm => ⟨h1, h2 hm, h3 hm⟩, ?_, ?_⟩
  · unfold drainLayer
    split_ifs with hm
    · show 0 ≤ percPush dt powf L / L.percArea
      exact div_nonneg (h3 hm) hpa.le
    · show (0 : ℚ) ≤ 0 / L.percArea
      norm_num
  · intro hm
    unfold drainLayer
    rw [if_neg (not_lt.mpr hm)]
    show (0 : ℚ) / L.percArea = 0
    norm_num

/-- C6 witness: a concrete layer in the drainage branch with all
preconditions satisfied; every `Perc` stage evaluates to `0 ≤ _`. -/
theorem drainLayer_perc_nonneg_witness :
    ((0 : ℚ) ≤ 0 ∧ (0 : ℚ) < 1 ∧ (1 : ℚ)/5 ≤ 1/2) ∧
    (((1 : ℚ)/5 < 2/5 →
      0 ≤ percAvg 1 (fun _ _ => 0) ⟨1, 0, 1, 1/2, 1/5, 1, 1, 2/5, 0⟩ ∧
      0 ≤ percClamp 1 (fun _ _ => 0) ⟨1, 0, 1, 1/2, 1/5, 1, 1, 2/5, 0⟩ ∧
      0 ≤ percPush 1 (fun _ _ => 0) ⟨1, 0, 1, 1/2, 1/5, 1, 1, 2/5, 0⟩) ∧
    0 ≤ ((drainLayer 1 (fun _ _ => 0)
      ⟨1, 0, 1, 1/2, 1/5, 1, 1, 2/5, 0⟩).1).perc ∧
    ((2 : ℚ)/5 ≤ 1/5 → ((drainLayer 1 (fun _ _ => 0)
      ⟨1, 0, 1, 1/2, 1/5, 1, 1, 2/5, 0⟩).1).perc = 0)) :=
  ⟨⟨le_refl 0, by norm_num, by norm_num⟩,
    drainLayer_perc_nonneg 1 (fun _ _ => 0) ⟨1, 0, 1, 1/2, 1/5, 1, 1, 2/5, 0⟩
      (le_refl 0) (le_refl 0) (by norm_num) (by norm_num) (by norm_num)
      (by norm_num) (by norm_num) (fun _ _ => le_refl 0)⟩

/-! ## Claim C3: remaining flow, runoff, and the assert -/

/-- Helper: the `AvaWater` expression of lines 278-283 is non-negative when
the layer's porosity is at least its field capacity and its geometry is
non-negative. -/
theorem avaWater_nonneg (tableDepth : ℚ) (L : Layer) (depth1 : ℚ)
    (hpf : L.fcap ≤ L.porosity) (hR : 0 ≤ L.rootDepth) (hA : 0 ≤ L.adjust) :
    0 ≤ (if depth1 > tableDepth then
           (if depth1 - tableDepth > L.rootDepth then
              (L.porosity - L.fcap) * L.rootDepth * L.adjust
            else (L.porosity - L.fcap) * (depth1 - tableDepth) * L.adjust)
         else 0) := by
  split_ifs with h1 h2
  · exact mul_nonneg (mul_nonneg (by linarith) hR) hA
  · exact mul_nonneg (mul_nonneg (by linarith) (by linarith)) hA
  · exact le_refl 0

/-- Helper: the sum of `AvaWater` values over the extraction traversal is
non-negative. -/
theorem availLoop_nonneg (totalDepth tableDepth : ℚ) :
    ∀ (ls : List Layer) (depth : ℚ),
      (∀ L ∈ ls, L.fcap ≤ L.porosity ∧ 0 ≤ L.rootDepth ∧ 0 ≤ L.adjust) →
      0 ≤ availLoop totalDepth tableDepth ls depth := by
  intro ls
  induction ls with
  | nil => intro depth _; simp [availLoop]
  | cons L rest ih =>
    intro depth h
    have hL := h L (List.mem_cons_self _ _)
    have hrest : ∀ M ∈ rest, M.fcap ≤ M.porosity ∧ 0 ≤ M.rootDepth ∧
        0 ≤ M.adjust := fun M hM => h M (List.mem_cons_of_mem _ hM)
    simp only [availLoop]
    by_cases hg : depth < totalDepth
    · rw [if_pos hg]
      exact add_nonneg
        (avaWater_nonneg tableDepth L _ hL.1 hL.2.1 hL.2.2) (ih _ hrest)
    · rw [if_neg hg]

/-- Helper: the final `SatFlow` of the extraction loop equals
`min 0 (SatFlow + Σ AvaWater)`: the demand is served until the available
water over the traversed layers is exhausted. -/
theorem extractLoop_satFlow_eq (totalDepth tableDepth : ℚ) :
    ∀ (ls : List Layer) (sf depth : ℚ), sf < 0 →
      (∀ L ∈ ls, L.fcap ≤ L.porosity ∧ 0 ≤ L.rootDepth ∧ 0 ≤ L.adjust) →
      (extractLoop totalDepth tableDepth ls sf depth).2.1 =
        min 0 (sf + availLoop totalDepth tableDepth ls depth) := by
  intro ls
  induction ls with
  | nil =>
    intro sf depth hsf _
    simp only [extractLoop, availLoop, add_zero]
    exact (min_eq_right hsf.le).symm
  | cons L rest ih =>
    intro sf depth hsf h
    have hL := h L (List.mem_cons_self _ _)
    have hrest : ∀ M ∈ rest, M.fcap ≤ M.porosity ∧ 0 ≤ M.rootDepth ∧
        0 ≤ M.adjust := fun M hM => h M (List.mem_cons_of_mem _ hM)
    simp only [extractLoop, availLoop]
    by_cases hg : depth < totalDepth
    · rw [if_pos hg, if_pos hg]
      set D1 := (if L.rootDepth < totalDepth - depth then depth + L.rootDepth
                 else totalDepth) with hD1
      set A := (if D1 > tableDepth then
                  (if D1 - tableDepth > L.rootDepth then
                     (L.porosity - L.fcap) * L.rootDepth * L.adjust
                   else (L.porosity - L.fcap) * (D1 - tableDepth) * L.adjust)
                else 0) with hA2
      have hAnn : 0 ≤ A := by
        rw [hA2]; exact avaWater_nonneg tableDepth L D1 hL.1 hL.2.1 hL.2.2
      by_cases hc : -sf > A
      · have hlt : sf + A < 0 := by linarith
        rw [if_pos hc]
        have hne : sf - -A ≠ 0 := by
          intro hz
          rw [sub_neg_eq_add] at hz
          exact absurd hz (ne_of_lt hlt)
        rw [if_neg hne]
        show (extractLoop totalDepth tableDepth rest (sf - -A) D1).2.1 = _
        rw [ih (sf - -A) D1 (by rw [sub_neg_eq_add]; exact hlt) hrest,
          sub_neg_eq_add, add_assoc]
      · have h0 : 0 ≤ sf + A := by
          push_neg at hc
          linarith
        rw [if_neg hc, sub_self, if_pos rfl]
        have hrec : 0 ≤ availLoop totalDepth tableDepth rest D1 :=
          availLoop_nonneg totalDepth tableDepth rest D1 hrest
        exact (min_eq_left (by linarith)).symm
    · rw [if_neg hg, if_neg hg, add_zero]
      exact (min_eq_right hsf.le).symm

/-- Helper: if the extraction loop exits with a strictly negative `SatFlow`
(so it never broke early), its final cumulative `Depth` is the full
traversal depth. -/
theorem extractLoop_depth_eq (totalDepth tableDepth : ℚ) :
    ∀ (ls : List Layer) (sf depth : ℚ),
      (extractLoop totalDepth tableDepth ls sf depth).2.1 < 0 →
      (extractLoop totalDepth tableDepth ls sf depth).2.2 =
        depthAfter totalDepth ls depth := by
  intro ls
  induction ls with
  | nil => intro sf depth _; rfl
  | cons L rest ih =>
    intro sf depth hneg
    simp only [extractLoop, depthAfter] at hneg ⊢
    by_cases hg : depth < totalDepth
    · rw [if_pos hg] at hneg ⊢
      rw [if_pos hg]
      set D1 := (if L.rootDepth < totalDepth - depth then depth + L.rootDepth
                 else totalDepth) with hD1
      set A := (if D1 > tableDepth then
                  (if D1 - tableDepth > L.rootDepth then
                     (L.porosity - L.fcap) * L.rootDepth * L.adjust
                   else (L.porosity - L.fcap) * (D1 - tableDepth) * L.adjust)
                else 0) with hA2
      by_cases hz : sf - (if -sf > A then -A else sf) = 0
      · rw [if_pos hz] at hneg
        have hx : sf - (if -sf > A then -A else sf) < 0 := hneg
        rw [hz] at hx
        exact absurd hx (lt_irrefl 0)
      · rw [if_neg hz] at hneg ⊢
        exact ih _ _ hneg
    · rw [if_neg hg] at hneg ⊢
      rw [if_neg hg]

/-- Helper: `DeepAvaWater` is non-negative when the table is above the
bottom of the profile and the deep parameters are well-formed. -/
theorem deepAvaWater_nonneg (totalDepth tableDepth dPor dFCap deepDepth
    deepAdjust depth : ℚ) (htt : tableDepth ≤ totalDepth) (hpf : dFCap ≤ dPor)
    (hdd : 0 ≤ deepDepth) (hda : 0 ≤ deepAdjust) :
    0 ≤ deepAvaWater totalDepth tableDepth dPor dFCap deepDepth deepAdjust
        depth := by
  unfold deepAvaWater
  split_ifs with h1 h2
  · exact mul_nonneg (mul_nonneg (by linarith) hdd) hda
  · exact mul_nonneg (mul_nonneg (by linarith) (by linarith)) hda
  · exact le_refl _

/-- Helper: the bottom-up injection loop never drives `SatFlow` negative:
each step subtracts `min(SatFlow, WaterGap)` and breaks at exactly zero. -/
theorem injectLoopRev_satFlow_nonneg :
    ∀ (ls : List Layer) (sf depth : ℚ), 0 ≤ sf →
      0 ≤ (injectLoopRev ls sf depth).2.1 := by
  intro ls
  induction ls with
  | nil => intro sf depth h; exact h
  | cons L rest ih =>
    intro sf depth hsf
    simp only [injectLoopRev]
    set g := (L.porosity - L.moist) * L.rootDepth * L.adjust with hgd
    have hstep : 0 ≤ sf - (if sf > g then g else sf) := by
      by_cases hgap : sf > g
      · rw [if_pos hgap]; linarith
      · rw [if_neg hgap]; linarith
    by_cases hc : sf - (if sf > g then g else sf) = 0
    · rw [if_pos hc]
      exact le_of_eq hc.symm
    · rw [if_neg hc]
      exact ih _ _ hstep

/-- Helper: the deep-extraction block on a negative flow yields
`min 0 (SatFlow + DeepAvaWater)`. -/
theorem deepExtractStep_satFlow_eq (totalDepth tableDepth dPor dFCap deepDepth
    deepAdjust deepMoist sf depth : ℚ) (hsf : sf < 0)
    (hava : 0 ≤ deepAvaWater totalDepth tableDepth dPor dFCap deepDepth
        deepAdjust depth) :
    (deepExtractStep totalDepth tableDepth dPor dFCap deepDepth deepAdjust
        deepMoist sf depth).2.1 =
      min 0 (sf + deepAvaWater totalDepth tableDepth dPor dFCap deepDepth
        deepAdjust depth) := by
  simp only [deepExtractStep]
  rw [if_pos hsf]
  set D := deepAvaWater totalDepth tableDepth dPor dFCap deepDepth deepAdjust
    depth with hD
  by_cases hc : -sf > D
  · rw [if_pos hc]
    show sf - -D = _
    rw [sub_neg_eq_add]
    exact (min_eq_right (by linarith)).symm
  · rw [if_neg hc]
    show sf - sf = _
    push_neg at hc
    rw [sub_self]
    exact (min_eq_left (by linarith)).symm

/-- Helper: the injection branch keeps a non-negative flow non-negative. -/
theorem injectStep_satFlow_nonneg (layers : List Layer) (totalDepth dPor
    deepDepth deepAdjust deepMoist sf depth : ℚ) (hsf : 0 ≤ sf) :
    0 ≤ (injectStep layers totalDepth dPor deepDepth deepAdjust deepMoist sf
        depth).2.2 := by
  simp only [injectStep]
  by_cases hp : sf > 0
  · rw [if_pos hp]
    set g := (dPor - deepMoist) * deepDepth * deepAdjust with hgd
    have hstep : 0 ≤ sf - (if sf > g then g else sf) := by
      by_cases hgap : sf > g
      · rw [if_pos hgap]; linarith
      · rw [if_neg hgap]; linarith
    by_cases hq : sf - (if sf > g then g else sf) > 0
    · rw [if_pos hq]
      exact injectLoopRev_satFlow_nonneg layers.reverse _ _ hstep
    · rw [if_neg hq]
      exact hstep
  · rw [if_neg hp]
    exact hsf

/-- Helper: the injection branch leaves a non-positive flow untouched. -/
theorem injectStep_satFlow_of_nonpos (layers : List Layer) (totalDepth dPor
    deepDepth deepAdjust deepMoist sf depth : ℚ) (hsf : sf ≤ 0) :
    (injectStep layers totalDepth dPor deepDepth deepAdjust deepMoist sf
        depth).2.2 = sf := by
  simp only [injectStep]
  rw [if_neg (not_lt.mpr hsf)]

/-- Helper: a positive value is moved into an accumulator, a non-positive
one is not (the shape of lines 341-342). -/
theorem runoff_ite_eq (r s : ℚ) :
    (if s > 0 then r + s else r) = r + (if 0 < s then s else 0) := by
  split_ifs <;> simp

/-- Helper: the final `SatFlow` of `DistributeSatflow` is
`min 0 (SatFlow + totalAvail)` for an extraction call, and stays
non-negative for an injection call. -/
theorem distributeSatflow_satFlow_char (satFlow totalDepth : ℚ)
    (layers : List Layer) (deepAdjust tableDepth runoff deepMoist : ℚ)
    (hL : ∀ L ∈ layers, L.fcap ≤ L.porosity ∧ 0 ≤ L.rootDepth ∧ 0 ≤ L.adjust)
    (hne : layers ≠ []) (htt : tableDepth ≤ totalDepth)
    (hdd : 0 ≤ deepLayerDepth totalDepth layers) (hda : 0 ≤ deepAdjust) :
    (satFlow < 0 →
      (distributeSatflow satFlow totalDepth layers deepAdjust tableDepth
          runoff deepMoist).satFlow =
        min 0 (satFlow + totalAvail totalDepth tableDepth layers deepAdjust)) ∧
    (0 ≤ satFlow →
      0 ≤ (distributeSatflow satFlow totalDepth layers deepAdjust tableDepth
          runoff deepMoist).satFlow) := by
  have hpfd : ((layers.getLast?).map Layer.fcap).getD 0 ≤
      ((layers.getLast?).map Layer.porosity).getD 0 := by
    rw [List.getLast?_eq_getLast _ hne]
    exact (hL _ (List.getLast_mem hne)).1
  constructor
  · intro hsf
    simp only [distributeSatflow]
    rw [if_pos hsf]
    set dPor := ((layers.getLast?).map Layer.porosity).getD 0 with hdPor
    set dFCap := ((layers.getLast?).map Layer.fcap).getD 0 with hdFCap
    set dD := deepLayerDepth totalDepth layers with hdD
    set E := extractLoop totalDepth tableDepth layers satFlow 0 with hE
    have hEsf : E.2.1 =
        min 0 (satFlow + availLoop totalDepth tableDepth layers 0) :=
      extractLoop_satFlow_eq totalDepth tableDepth layers satFlow 0 hsf hL
    by_cases h2 : E.2.1 < 0
    · have hdep : E.2.2 = depthAfter totalDepth layers 0 :=
        extractLoop_depth_eq totalDepth tableDepth layers satFlow 0 h2
      have hDnn : 0 ≤ deepAvaWater totalDepth tableDepth dPor dFCap dD
          deepAdjust E.2.2 := by
        rw [hdep]
        exact deepAvaWater_nonneg totalDepth tableDepth dPor dFCap dD
          deepAdjust _ htt hpfd hdd hda
      have hde : (deepExtractStep totalDepth tableDepth dPor dFCap dD
          deepAdjust deepMoist E.2.1 E.2.2).2.1 =
          min 0 (E.2.1 + deepAvaWater totalDepth tableDepth dPor dFCap dD
            deepAdjust E.2.2) :=
        deepExtractStep_satFlow_eq totalDepth tableDepth dPor dFCap dD
          deepAdjust deepMoist E.2.1 E.2.2 h2 hDnn
      have hde_np : (deepExtractStep totalDepth tableDepth dPor dFCap dD
          deepAdjust deepMoist E.2.1 E.2.2).2.1 ≤ 0 := by
        rw [hde]; exact min_le_left _ _
      rw [injectStep_satFlow_of_nonpos _ _ _ _ _ _ _ _ hde_np, hde, hEsf,
        hdep]
      have hx : satFlow + availLoop totalDepth tableDepth layers 0 < 0 := by
        rcases min_lt_iff.mp (hEsf ▸ h2) with h | h
        · exact absurd h (lt_irrefl 0)
        · exact h
      rw [min_eq_right hx.le]
      simp only [totalAvail]
      rw [← add_assoc]
    · have hE0 : E.2.1 = 0 :=
        le_antisymm (hEsf ▸ min_le_left _ _) (not_lt.mp h2)
      have hde0 : (deepExtractStep totalDepth tableDepth
          (((layers.getLast?).map Layer.porosity).getD 0)
          (((layers.getLast?).map Layer.fcap).getD 0)
          (deepLayerDepth totalDepth layers) deepAdjust deepMoist E.2.1
          E.2.2).2.1 = E.2.1 := by
        simp only [deepExtractStep]
        rw [if_neg (by rw [hE0]; exact lt_irrefl 0)]
      rw [injectStep_satFlow_of_nonpos _ _ _ _ _ _ _ _
        (by rw [hde0, hE0]), hde0, hE0]
      have hA0 : 0 ≤ satFlow + availLoop totalDepth tableDepth layers 0 := by
        by_contra hlt
        push_neg at hlt
        rw [min_eq_right hlt.le] at hEsf
        rw [hE0] at hEsf
        exact absurd hEsf.symm (ne_of_lt hlt)
      have hDnn' : 0 ≤ deepAvaWater totalDepth tableDepth
          (((layers.getLast?).map Layer.porosity).getD 0)
          (((layers.getLast?).map Layer.fcap).getD 0)
          (deepLayerDepth totalDepth layers) deepAdjust
          (depthAfter totalDepth layers 0) :=
        deepAvaWater_nonneg _ _ _ _ _ _ _ htt hpfd hdd hda
      simp only [totalAvail]
      exact (min_eq_left (by linarith)).symm
  · intro hsf
    simp only [distributeSatflow]
    rw [if_neg (not_lt.mpr hsf)]
    have hde : (deepExtractStep totalDepth tableDepth
        (((layers.getLast?).map Layer.porosity).getD 0)
        (((layers.getLast?).map Layer.fcap).getD 0)
        (deepLayerDepth totalDepth layers) deepAdjust deepMoist
        (layers, satFlow, (0 : ℚ)).2.1 (layers, satFlow, (0 : ℚ)).2.2).2.1 =
        satFlow := by
      show (deepExtractStep totalDepth tableDepth
        (((layers.getLast?).map Layer.porosity).getD 0)
        (((layers.getLast?).map Layer.fcap).getD 0)
        (deepLayerDepth totalDepth layers) deepAdjust deepMoist satFlow
        0).2.1 = satFlow
      simp only [deepExtractStep]
      rw [if_neg (not_lt.mpr hsf)]
    exact injectStep_satFlow_nonneg _ _ _ _ _ _ _ _ (by rw [hde]; exact hsf)

/-- C3. On exit from `DistributeSatflow`: any remaining positive flow has
been added to the runoff accumulator (lines 341-342), and the
`assert(SatFlow >= 0.0)` at line 344 fails exactly when the call was an
extraction (`SatFlow < 0` on entry) whose demand exceeds the total available
water over the explicit layers plus the deep reservoir.  Preconditions: a
non-empty column with well-formed geometry (`FCap ≤ Porosity`,
`RootDepth ≥ 0`, `Adjust ≥ 0` per layer, non-negative deep thickness and
adjustment) and the water table not below the profile bottom. -/
theorem distributeSatflow_runoff_and_trap (satFlow totalDepth : ℚ)
    (layers : List Layer) (deepAdjust tableDepth runoff deepMoist : ℚ)
    (hL : ∀ L ∈ layers, L.fcap ≤ L.porosity ∧ 0 ≤ L.rootDepth ∧ 0 ≤ L.adjust)
    (hne : layers ≠ []) (htt : tableDepth ≤ totalDepth)
    (hdd : 0 ≤ deepLayerDepth totalDepth layers) (hda : 0 ≤ deepAdjust) :
    (distributeSatflow satFlow totalDepth layers deepAdjust tableDepth runoff
        deepMoist).runoff =
      runoff + (if 0 < (distributeSatflow satFlow totalDepth layers deepAdjust
            tableDepth runoff deepMoist).satFlow
        then (distributeSatflow satFlow totalDepth layers deepAdjust
            tableDepth runoff deepMoist).satFlow
        else 0) ∧
    (distributeSatflowTraps satFlow totalDepth layers deepAdjust tableDepth
        runoff deepMoist ↔
      satFlow < 0 ∧
        totalAvail totalDepth tableDepth layers deepAdjust < -satFlow) := by
  have hchar := distributeSatflow_satFlow_char satFlow totalDepth layers
    deepAdjust tableDepth runoff deepMoist hL hne htt hdd hda
  constructor
  · simp only [distributeSatflow]
    exact runoff_ite_eq _ _
  · constructor
    · intro h
      simp only [distributeSatflowTraps] at h
      by_cases hsf : satFlow < 0
      · rw [hchar.1 hsf] at h
        rcases min_lt_iff.mp h with h' | h'
        · exact absurd h' (lt_irrefl 0)
        · exact ⟨hsf, by linarith⟩
      · exact absurd h (not_lt.mpr (hchar.2 (not_lt.mp hsf)))
    · rintro ⟨hsf, hT⟩
      simp only [distributeSatflowTraps]
      rw [hchar.1 hsf]
      exact min_lt_iff.mpr (Or.inr (by linarith))

/-- C3 witness: a one-layer column whose total available water is `3/10`
cannot serve an extraction of magnitude `10`: the assert condition holds and
the runoff equation is satisfied with a negative final flow. -/
theorem distributeSatflow_runoff_and_trap_witness :
    ((1 : ℚ) ≤ 2 ∧ ([⟨1, 0, 0, 1/2, 1/5, 0, 1, 1/2, 0⟩] : List Layer) ≠ []) ∧
    ((distributeSatflow (-10) 2 [⟨1, 0, 0, 1/2, 1/5, 0, 1, 1/2, 0⟩] 1 1 3
        (1/2)).runoff =
      3 + (if 0 < (distributeSatflow (-10) 2 [⟨1, 0, 0, 1/2, 1/5, 0, 1, 1/2, 0⟩]
            1 1 3 (1/2)).satFlow
        then (distributeSatflow (-10) 2 [⟨1, 0, 0, 1/2, 1/5, 0, 1, 1/2, 0⟩]
            1 1 3 (1/2)).satFlow
        else 0) ∧
    (distributeSatflowTraps (-10) 2 [⟨1, 0, 0, 1/2, 1/5, 0, 1, 1/2, 0⟩] 1 1 3
        (1/2) ↔
      (-10 : ℚ) < 0 ∧
        totalAvail 2 1 [⟨1, 0, 0, 1/2, 1/5, 0, 1, 1/2, 0⟩] 1 < -(-10))) :=
  ⟨⟨by norm_num, by norm_num⟩,
    distributeSatflow_runoff_and_trap (-10) 2
      [⟨1, 0, 0, 1/2, 1/5, 0, 1, 1/2, 0⟩] 1 1 3 (1/2)
      (by intro L hmem; rw [List.mem_singleton.mp hmem]; norm_num)
      (by norm_num) (by norm_num)
      (by norm_num [deepLayerDepth]) (by norm_num)⟩

/-! ## Claim C1: mass conservation -/

/-- The static geometry of a layer: thickness, adjustment factor and area
fraction.  Every operation of the two routines rewrites only `moist` and
`perc`, so the image of a layer list under `geom` is invariant. -/
def geom (L : Layer) : ℚ × ℚ × ℚ := (L.rootDepth, L.adjust, L.percArea)

/-- Helper: unfolding of `totalVol` over a cons. -/
theorem totalVol_cons (L : Layer) (ls : List Layer) :
    totalVol (L :: ls) = layerVol L + totalVol ls := by
  simp [totalVol]

/-- Helper: two lists with the same geometry have the same deep-layer
thickness. -/
theorem deepLayerDepth_eq_of_geom (totalDepth : ℚ) :
    ∀ (ls ls' : List Layer), ls'.map geom = ls.map geom →
      deepLayerDepth totalDepth ls' = deepLayerDepth totalDepth ls := by
  intro ls ls' h
  unfold deepLayerDepth
  have : ls'.map Layer.rootDepth = ls.map Layer.rootDepth := by
    have h1 : (ls'.map geom).map Prod.fst = (ls.map geom).map Prod.fst := by
      rw [h]
    simpa [List.map_map, Function.comp, geom] using h1
  rw [this]

/-- Helper: a per-layer property of the geometry fields transfers along a
`geom`-preserving transformation. -/
theorem forall_mem_of_geom_eq {P : ℚ → ℚ → ℚ → Prop} :
    ∀ (ls ls' : List Layer), ls'.map geom = ls.map geom →
      (∀ L ∈ ls, P L.rootDepth L.adjust L.percArea) →
      ∀ L' ∈ ls', P L'.rootDepth L'.adjust L'.percArea := by
  intro ls ls' h hP L' hL'
  have hmem : geom L' ∈ ls.map geom := by
    rw [← h]
    exact List.mem_map_of_mem geom hL'
  obtain ⟨L, hL, hg⟩ := List.mem_map.1 hmem
  have h1 : L.rootDepth = L'.rootDepth := congrArg Prod.fst hg
  have h2 : L.adjust = L'.adjust := congrArg (fun p => p.2.1) hg
  have h3 : L.percArea = L'.percArea := congrArg (fun p => p.2.2) hg
  rw [← h1, ← h2, ← h3]
  exact hP L hL

/-- Helper: `addVolToLayer` preserves the geometry. -/
theorem addVolToLayer_geom :
    ∀ (ls : List Layer) (k : ℕ) (v : ℚ),
      (addVolToLayer ls k v).map geom = ls.map geom := by
  intro ls
  induction ls with
  | nil => intro k v; rfl
  | cons L rest ih =>
    intro k v
    cases k with
    | zero => simp [addVolToLayer, geom]
    | succ k => simp [addVolToLayer, ih k v]

/-- Helper: the drainage step preserves the geometry of its layer. -/
theorem drainLayer_geom (dt : ℚ) (powf : ℚ → ℚ → ℚ) (L : Layer) :
    geom (drainLayer dt powf L).1 = geom L := by
  unfold drainLayer
  split_ifs <;> rfl

/-- Helper: the drainage loop preserves the geometry. -/
theorem drainLoop_geom (dt : ℚ) (powf : ℚ → ℚ → ℚ) :
    ∀ (ls : List Layer) (inc : ℚ),
      ((drainLoop dt powf inc ls).1).map geom = ls.map geom := by
  intro ls
  induction ls with
  | nil => intro inc; rfl
  | cons L rest ih =>
    intro inc
    cases rest with
    | nil =>
      simp only [drainLoop, List.map]
      rw [show geom (drainLayer dt powf
        { L with moist := L.moist + inc / (L.rootDepth * L.adjust) }).1 =
          geom L from drainLayer_geom dt powf _]
    | cons r rs =>
      simp only [drainLoop, List.map]
      rw [drainLayer_geom dt powf _, ih _]
      rfl

/-- Helper: the capping pass preserves the geometry. -/
theorem capUp_geom :
    ∀ (ls : List Layer) (up : ℚ),
      ((capUp ls up).1).map geom = ls.map geom := by
  intro ls
  induction ls with
  | nil => intro up; rfl
  | cons L rest ih =>
    intro up
    simp only [capUp]
    split_ifs <;> simp [geom, ih up]

/-- Helper: one drainage step moves exactly its percolation volume out of
the layer (lines 186-187). -/
theorem drainLayer_vol (dt : ℚ) (powf : ℚ → ℚ → ℚ) (L : Layer)
    (hRA : L.rootDepth * L.adjust ≠ 0) :
    layerVol (drainLayer dt powf L).1 = layerVol L - (drainLayer dt powf L).2 := by
  unfold drainLayer
  split_ifs with hm
  · show (L.moist - percPush dt powf L / (L.rootDepth * L.adjust)) *
        (L.rootDepth * L.adjust) = L.moist * (L.rootDepth * L.adjust) - _
    field_simp
  · show L.moist * (L.rootDepth * L.adjust) =
      L.moist * (L.rootDepth * L.adjust) - 0
    rw [sub_zero]

/-- Helper: multiplying the stored (rescaled, line 195) flux back by the
area fraction recovers the percolation volume (line 198). -/
theorem drainLayer_perc_recover (dt : ℚ) (powf : ℚ → ℚ → ℚ) (L : Layer)
    (hpa : L.percArea ≠ 0) :
    (drainLayer dt powf L).1.perc * (drainLayer dt powf L).1.percArea =
      (drainLayer dt powf L).2 := by
  unfold drainLayer
  split_ifs with hm
  · show percPush dt powf L / L.percArea * L.percArea = percPush dt powf L
    exact div_mul_cancel₀ _ hpa
  · show 0 / L.percArea * L.percArea = 0
    rw [zero_div, zero_mul]

/-- Helper: the drainage loop conserves water: the volume of the processed
layers plus the outgoing deep drainage equals the initial volume plus the
incoming volume. -/
theorem drainLoop_conserve (dt : ℚ) (powf : ℚ → ℚ → ℚ) :
    ∀ (L : Layer) (rest : List Layer) (inc : ℚ),
      (∀ M ∈ L :: rest, M.rootDepth * M.adjust ≠ 0 ∧ M.percArea ≠ 0) →
      totalVol (drainLoop dt powf inc (L :: rest)).1 +
          (drainLoop dt powf inc (L :: rest)).2 =
        totalVol (L :: rest) + inc := by
  intro L rest
  induction rest generalizing L with
  | nil =>
    intro inc h
    have hL := h L (List.mem_cons_self _ _)
    simp only [drainLoop]
    set L1 := { L with moist := L.moist + inc / (L.rootDepth * L.adjust) }
      with hL1
    have hRA : L1.rootDepth * L1.adjust ≠ 0 := hL.1
    have hpa : L1.percArea ≠ 0 := hL.2
    rw [totalVol_cons, totalVol_cons]
    simp only [totalVol]
    rw [drainLayer_perc_recover dt powf L1 hpa, drainLayer_vol dt powf L1 hRA]
    have hL1vol : layerVol L1 = layerVol L + inc := by
      show (L.moist + inc / (L.rootDepth * L.adjust)) *
        (L.rootDepth * L.adjust) = L.moist * (L.rootDepth * L.adjust) + inc
      field_simp
    rw [hL1vol]
    ring
  | cons r rs ih =>
    intro inc h
    have hL := h L (List.mem_cons_self _ _)
    have hr := h r (List.mem_cons_of_mem _ (List.mem_cons_self _ _))
    have hrest : ∀ M ∈ r :: rs, M.rootDepth * M.adjust ≠ 0 ∧ M.percArea ≠ 0 :=
      fun M hM => h M (List.mem_cons_of_mem _ hM)
    simp only [drainLoop]
    set L1 := { L with moist := L.moist + inc / (L.rootDepth * L.adjust) }
      with hL1
    have hRA : L1.rootDepth * L1.adjust ≠ 0 := hL.1
    rw [totalVol_cons, totalVol_cons]
    have hrec := ih r ((drainLayer dt powf L1).2) hrest
    rw [add_assoc, hrec, drainLayer_vol dt powf L1 hRA]
    have hL1vol : layerVol L1 = layerVol L + inc := by
      show (L.moist + inc / (L.rootDepth * L.adjust)) *
        (L.rootDepth * L.adjust) = L.moist * (L.rootDepth * L.adjust) + inc
      field_simp
    rw [hL1vol]
    ring
  
/-- Helper: adding a volume to an existing layer raises the total volume by
exactly that amount. -/
theorem addVolToLayer_conserve :
    ∀ (ls : List Layer) (k : ℕ) (v : ℚ), k < ls.length →
      (∀ M ∈ ls, M.rootDepth * M.adjust ≠ 0) →
      totalVol (addVolToLayer ls k v) = totalVol ls + v := by
  intro ls
  induction ls with
  | nil => intro k v hk _; exact absurd hk (by simp)
  | cons L rest ih =>
    intro k v hk h
    cases k with
    | zero =>
      have hL := h L (List.mem_cons_self _ _)
      simp only [addVolToLayer]
      rw [totalVol_cons, totalVol_cons]
      have : layerVol { L with
          moist := L.moist + v / (L.rootDepth * L.adjust) } =
          layerVol L + v := by
        show (L.moist + v / (L.rootDepth * L.adjust)) *
          (L.rootDepth * L.adjust) = L.moist * (L.rootDepth * L.adjust) + v
        field_simp
      rw [this]
      ring
    | succ k =>
      have hrest : ∀ M ∈ rest, M.rootDepth * M.adjust ≠ 0 :=
        fun M hM => h M (List.mem_cons_of_mem _ hM)
      simp only [addVolToLayer]
      rw [totalVol_cons, totalVol_cons,
        ih k v (by simpa using Nat.lt_of_succ_lt_succ hk) hrest]
      ring

/-- Helper: the capping pass conserves water: capped volume plus the surplus
that emerges above equals the initial volume plus the surplus injected
below. -/
theorem capUp_conserve :
    ∀ (ls : List Layer) (up : ℚ),
      (∀ M ∈ ls, M.rootDepth * M.adjust ≠ 0) →
      totalVol (capUp ls up).1 + (capUp ls up).2 = totalVol ls + up := by
  intro ls
  induction ls with
  | nil => intro up _; simp [capUp, totalVol]
  | cons L rest ih =>
    intro up h
    have hL := h L (List.mem_cons_self _ _)
    have hrest : ∀ M ∈ rest, M.rootDepth * M.adjust ≠ 0 :=
      fun M hM => h M (List.mem_cons_of_mem _ hM)
    have hrec := ih up hrest
    simp only [capUp]
    split_ifs with hcap <;> try dsimp only
    · rw [totalVol_cons, totalVol_cons]
      have : layerVol { L with moist := L.porosity } =
          L.porosity * (L.rootDepth * L.adjust) := rfl
      rw [this]
      have hup : (L.moist + (capUp rest up).2 / (L.rootDepth * L.adjust) -
          L.porosity) * (L.rootDepth * L.adjust) =
          layerVol L + (capUp rest up).2 -
            L.porosity * (L.rootDepth * L.adjust) := by
        show _ = L.moist * (L.rootDepth * L.adjust) + _ - _
        field_simp
        ring
      rw [hup]
      have := hrec
      unfold layerVol at this ⊢
      linarith
    · rw [totalVol_cons, totalVol_cons]
      have : layerVol { L with
          moist := L.moist + (capUp rest up).2 / (L.rootDepth * L.adjust) } =
          layerVol L + (capUp rest up).2 := by
        show (L.moist + (capUp rest up).2 / (L.rootDepth * L.adjust)) *
          (L.rootDepth * L.adjust) = L.moist * (L.rootDepth * L.adjust) + _
        field_simp
      rw [this, add_zero]
      linarith

/-- Helper: the surplus emerging from the capping pass is non-negative when
the injected surplus is and the geometry is positive. -/
theorem capUp_pond_nonneg :
    ∀ (ls : List Layer) (up : ℚ), 0 ≤ up →
      (∀ M ∈ ls, 0 < M.rootDepth ∧ 0 < M.adjust) →
      0 ≤ (capUp ls up).2 := by
  intro ls
  induction ls with
  | nil => intro up hup _; exact hup
  | cons L rest ih =>
    intro up hup h
    have hL := h L (List.mem_cons_self _ _)
    have hrest : ∀ M ∈ rest, 0 < M.rootDepth ∧ 0 < M.adjust :=
      fun M hM => h M (List.mem_cons_of_mem _ hM)
    simp only [capUp]
    split_ifs with hcap
    · exact mul_nonneg (by linarith) (mul_pos hL.1 hL.2).le
    · exact le_refl 0

/-- Helper: the modelled `WaterTableDepth` conserves water: capped volume
plus capped deep volume plus the ponded amount (the negative part of the
returned depth) equals the incoming volume. -/
theorem waterTableDepth_conserve (totalDepth : ℚ) (ls : List Layer)
    (deepAdjust deepMoist dPor dFCap : ℚ)
    (hGL : ∀ M ∈ ls, 0 < M.rootDepth ∧ 0 < M.adjust)
    (hW0 : 0 ≤ deepLayerDepth totalDepth ls * deepAdjust) :
    totalVol (waterTableDepth totalDepth ls deepAdjust deepMoist dPor dFCap).1 +
        (waterTableDepth totalDepth ls deepAdjust deepMoist dPor dFCap).2.1 *
          (deepLayerDepth totalDepth ls * deepAdjust) +
        (if (waterTableDepth totalDepth ls deepAdjust deepMoist dPor
              dFCap).2.2 < 0
         then -(waterTableDepth totalDepth ls deepAdjust deepMoist dPor
              dFCap).2.2
         else 0) =
      totalVol ls + deepMoist * (deepLayerDepth totalDepth ls * deepAdjust) := by
  have hRA : ∀ M ∈ ls, M.rootDepth * M.adjust ≠ 0 :=
    fun M hM => (mul_pos (hGL M hM).1 (hGL M hM).2).ne'
  simp only [waterTableDepth]
  try dsimp only
  set W := deepLayerDepth totalDepth ls * deepAdjust with hWd
  by_cases hdm : deepMoist > dPor
  · simp only [if_pos hdm]
    set U := (deepMoist - dPor) * W with hU
    have hU0 : 0 ≤ U := mul_nonneg (by linarith) hW0
    have hcons := capUp_conserve ls U hRA
    have hpond := capUp_pond_nonneg ls U hU0
      (fun M hM => ⟨(hGL M hM).1, (hGL M hM).2⟩)
    by_cases hp : 0 < (capUp ls U).2
    · simp only [if_pos hp]
      rw [if_pos (by linarith : -(capUp ls U).2 < 0), neg_neg]
      have : dPor * W = deepMoist * W - U := by rw [hU]; ring
      linarith
    · simp only [if_neg hp]
      rw [if_neg (not_lt.mpr (le_max_left 0 _))]
      have hp0 : (capUp ls U).2 = 0 := le_antisymm (not_lt.mp hp) hpond
      have : dPor * W = deepMoist * W - U := by rw [hU]; ring
      linarith
  · simp only [if_neg hdm]
    have hcons := capUp_conserve ls 0 hRA
    have hpond := capUp_pond_nonneg ls 0 (le_refl 0)
      (fun M hM => ⟨(hGL M hM).1, (hGL M hM).2⟩)
    by_cases hp : 0 < (capUp ls 0).2
    · simp only [if_pos hp]
      rw [if_pos (by linarith : -(capUp ls 0).2 < 0), neg_neg]
      linarith
    · simp only [if_neg hp]
      rw [if_neg (not_lt.mpr (le_max_left 0 _))]
      have hp0 : (capUp ls 0).2 = 0 := le_antisymm (not_lt.mp hp) hpond
      linarith

/-- Helper: the roadbed step preserves the geometry. -/
theorem roadbedStep_geom (roadbedInfiltration totalDepth : ℚ)
    (ls : List Layer) (deepAdjust : ℚ) (cutBankZone : ℤ)
    (bankHeight tableDepth runoff deepMoist : ℚ) :
    ((roadbedStep roadbedInfiltration totalDepth ls deepAdjust cutBankZone
        bankHeight tableDepth runoff deepMoist).1).map geom = ls.map geom := by
  simp only [roadbedStep]
  split_ifs <;> first
    | rfl
    | exact addVolToLayer_geom ls _ _

/-- Helper: the surface step preserves the geometry. -/
theorem surfaceStep_geom (infiltration : ℚ) (ls : List Layer)
    (tableDepth runoff : ℚ) :
    ((surfaceStep infiltration ls tableDepth runoff).1).map geom =
      ls.map geom := by
  simp only [surfaceStep]
  split_ifs <;> first
    | rfl
    | exact addVolToLayer_geom ls _ _

/-- Helper: the combined infiltration stage preserves the geometry. -/
theorem infilStage_geom (infiltration roadbedInfiltration totalDepth : ℚ)
    (ls : List Layer) (deepAdjust : ℚ) (cutBankZone : ℤ)
    (bankHeight tableDepth runoff deepMoist : ℚ) :
    ((infilStage infiltration roadbedInfiltration totalDepth ls deepAdjust
        cutBankZone bankHeight tableDepth runoff deepMoist).1).map geom =
      ls.map geom := by
  simp only [infilStage]
  try dsimp only
  rw [surfaceStep_geom, roadbedStep_geom]

/-- Helper: the roadbed step conserves water when the cut-bank index
addresses an existing layer or the deep reservoir. -/
theorem roadbedStep_conserve (roadbedInfiltration totalDepth : ℚ)
    (ls : List Layer) (deepAdjust : ℚ) (cutBankZone : ℤ)
    (bankHeight tableDepth runoff deepMoist : ℚ)
    (hRA : ∀ M ∈ ls, M.rootDepth * M.adjust ≠ 0)
    (hW : deepLayerDepth totalDepth ls * deepAdjust ≠ 0)
    (hcb : cutBankZone = (ls.length : ℤ) ∨
      (0 ≤ cutBankZone ∧ cutBankZone < (ls.length : ℤ))) :
    totalVol (roadbedStep roadbedInfiltration totalDepth ls deepAdjust
        cutBankZone bankHeight tableDepth runoff deepMoist).1 +
      (roadbedStep roadbedInfiltration totalDepth ls deepAdjust cutBankZone
        bankHeight tableDepth runoff deepMoist).2.1 *
        (deepLayerDepth totalDepth ls * deepAdjust) +
      (roadbedStep roadbedInfiltration totalDepth ls deepAdjust cutBankZone
        bankHeight tableDepth runoff deepMoist).2.2 =
      totalVol ls + deepMoist * (deepLayerDepth totalDepth ls * deepAdjust) +
        runoff + roadbedInfiltration := by
  simp only [roadbedStep]
  try dsimp only
  by_cases h1 : tableDepth ≤ bankHeight
  · simp only [if_pos h1]
    try dsimp only
    ring
  · simp only [if_neg h1]
    rcases hcb with hcb | hcb
    · simp only [if_pos hcb]
      try dsimp only
      field_simp
      ring
    · have hneq : cutBankZone ≠ (ls.length : ℤ) := by omega
      simp only [if_neg hneq, if_pos hcb.1]
      try dsimp only
      rw [addVolToLayer_conserve ls _ _ (by omega) hRA]
      ring

/-- Helper: the surface step conserves water on a non-empty column. -/
theorem surfaceStep_conserve (infiltration : ℚ) (ls : List Layer)
    (tableDepth runoff : ℚ) (hne : ls ≠ [])
    (hRA : ∀ M ∈ ls, M.rootDepth * M.adjust ≠ 0) :
    totalVol (surfaceStep infiltration ls tableDepth runoff).1 +
        (surfaceStep infiltration ls tableDepth runoff).2 =
      totalVol ls + runoff + infiltration := by
  simp only [surfaceStep]
  by_cases h : tableDepth ≤ 0
  · simp only [if_pos h]
    try dsimp only
    ring
  · simp only [if_neg h]
    try dsimp only
    rw [addVolToLayer_conserve ls 0 _ (List.length_pos.mpr hne) hRA]
    ring

/-- Helper: a geometry-preserving transformation maps non-empty lists to
non-empty lists. -/
theorem ne_nil_of_geom_eq :
    ∀ (ls ls' : List Layer), ls'.map geom = ls.map geom → ls ≠ [] →
      ls' ≠ [] := by
  intro ls ls' h hne hnil
  apply hne
  have hlen := congrArg List.length h
  simp only [List.length_map] at hlen
  rw [hnil] at hlen
  simp only [List.length_nil] at hlen
  exact List.eq_nil_of_length_eq_zero hlen.symm

/-- Helper: the combined infiltration stage conserves water. -/
theorem infilStage_conserve (infiltration roadbedInfiltration totalDepth : ℚ)
    (layers : List Layer) (deepAdjust : ℚ) (cutBankZone : ℤ)
    (bankHeight tableDepth runoff deepMoist : ℚ)
    (hRA : ∀ M ∈ layers, M.rootDepth * M.adjust ≠ 0) (hne : layers ≠ [])
    (hW : deepLayerDepth totalDepth layers * deepAdjust ≠ 0)
    (hcb : cutBankZone = (layers.length : ℤ) ∨
      (0 ≤ cutBankZone ∧ cutBankZone < (layers.length : ℤ))) :
    totalVol (infilStage infiltration roadbedInfiltration totalDepth layers
        deepAdjust cutBankZone bankHeight tableDepth runoff deepMoist).1 +
      (infilStage infiltration roadbedInfiltration totalDepth layers
        deepAdjust cutBankZone bankHeight tableDepth runoff deepMoist).2.1 *
        (deepLayerDepth totalDepth layers * deepAdjust) +
      (infilStage infiltration roadbedInfiltration totalDepth layers
        deepAdjust cutBankZone bankHeight tableDepth runoff deepMoist).2.2 =
      totalVol layers +
        deepMoist * (deepLayerDepth totalDepth layers * deepAdjust) + runoff +
        infiltration + roadbedInfiltration := by
  have hg := roadbedStep_geom roadbedInfiltration totalDepth layers deepAdjust
    cutBankZone bankHeight tableDepth runoff deepMoist
  have hRA' := @forall_mem_of_geom_eq (fun r a _ => r * a ≠ 0) layers _ hg hRA
  have hne' := ne_nil_of_geom_eq layers _ hg hne
  have hsfc := surfaceStep_conserve infiltration
    (roadbedStep roadbedInfiltration totalDepth layers deepAdjust cutBankZone
      bankHeight tableDepth runoff deepMoist).1 tableDepth
    (roadbedStep roadbedInfiltration totalDepth layers deepAdjust cutBankZone
      bankHeight tableDepth runoff deepMoist).2.2 hne' hRA'
  have hrbc := roadbedStep_conserve roadbedInfiltration totalDepth layers
    deepAdjust cutBankZone bankHeight tableDepth runoff deepMoist hRA hW hcb
  simp only [infilStage]
  try dsimp only
  linarith

/-- Helper: `UnsaturatedFlow` conserves water: the final volume (explicit
layers plus deep reservoir, each weighted by thickness times adjustment)
plus the final runoff equals the initial volume plus initial runoff plus the
surface and roadbed infiltration, provided the geometry is positive and the
cut-bank index addresses an existing layer or the deep reservoir.  `SatFlow`
is a parameter of the C function but is never read by its body, so it does
not appear in the balance. -/
theorem unsaturatedFlow_conserve (dt : ℚ) (powf : ℚ → ℚ → ℚ)
    (infiltration roadbedInfiltration satFlow totalDepth : ℚ)
    (layers : List Layer) (deepAdjust : ℚ) (cutBankZone : ℤ)
    (bankHeight tableDepth runoff deepMoist : ℚ) (infiltOption : ℤ)
    (hGL : ∀ M ∈ layers, 0 < M.rootDepth ∧ 0 < M.adjust ∧ 0 < M.percArea)
    (hne : layers ≠ [])
    (hdd : 0 < deepLayerDepth totalDepth layers) (hda : 0 < deepAdjust)
    (hcb : cutBankZone = (layers.length : ℤ) ∨
      (0 ≤ cutBankZone ∧ cutBankZone < (layers.length : ℤ))) :
    totalVol (unsaturatedFlow dt powf infiltration roadbedInfiltration
        satFlow totalDepth layers deepAdjust cutBankZone bankHeight
        tableDepth runoff deepMoist infiltOption).layers +
      (unsaturatedFlow dt powf infiltration roadbedInfiltration satFlow
        totalDepth layers deepAdjust cutBankZone bankHeight tableDepth runoff
        deepMoist infiltOption).deepMoist *
        (deepLayerDepth totalDepth layers * deepAdjust) +
      (unsaturatedFlow dt powf infiltration roadbedInfiltration satFlow
        totalDepth layers deepAdjust cutBankZone bankHeight tableDepth runoff
        deepMoist infiltOption).runoff =
      totalVol layers +
        deepMoist * (deepLayerDepth totalDepth layers * deepAdjust) + runoff +
        infiltration + roadbedInfiltration := by
  have hW : deepLayerDepth totalDepth layers * deepAdjust ≠ 0 :=
    (mul_pos hdd hda).ne'
  have hW0 : (0 : ℚ) ≤ deepLayerDepth totalDepth layers * deepAdjust :=
    (mul_pos hdd hda).le
  have hRA : ∀ M ∈ layers, M.rootDepth * M.adjust ≠ 0 :=
    fun M hM => (mul_pos (hGL M hM).1 (hGL M hM).2.1).ne'
  have hI := infilStage_conserve infiltration roadbedInfiltration totalDepth
    layers deepAdjust cutBankZone bankHeight tableDepth runoff deepMoist hRA
    hne hW hcb
  have hgi := infilStage_geom infiltration roadbedInfiltration totalDepth
    layers deepAdjust cutBankZone bankHeight tableDepth runoff deepMoist
  have hne1 := ne_nil_of_geom_eq layers _ hgi hne
  have hDRA := @forall_mem_of_geom_eq (fun r a p => r * a ≠ 0 ∧ p ≠ 0)
    layers _ hgi
    (fun M hM => ⟨(mul_pos (hGL M hM).1 (hGL M hM).2.1).ne',
      (hGL M hM).2.2.ne'⟩)
  obtain ⟨L0, rest0, hsplit⟩ := List.exists_cons_of_ne_nil hne1
  have hD : totalVol (drainStage dt powf infiltration roadbedInfiltration
      totalDepth layers deepAdjust cutBankZone bankHeight tableDepth runoff
      deepMoist).1 +
      (drainStage dt powf infiltration roadbedInfiltration totalDepth layers
        deepAdjust cutBankZone bankHeight tableDepth runoff deepMoist).2 =
      totalVol (infilStage infiltration roadbedInfiltration totalDepth layers
        deepAdjust cutBankZone bankHeight tableDepth runoff deepMoist).1 +
        0 := by
    simp only [drainStage]
    rw [hsplit]
    exact drainLoop_conserve dt powf L0 rest0 0 (hsplit ▸ hDRA)
  have hgd : ((drainStage dt powf infiltration roadbedInfiltration totalDepth
      layers deepAdjust cutBankZone bankHeight tableDepth runoff
      deepMoist).1).map geom = layers.map geom := by
    simp only [drainStage]
    rw [drainLoop_geom, hgi]
  have hWeq : deepLayerDepth totalDepth (drainStage dt powf infiltration
      roadbedInfiltration totalDepth layers deepAdjust cutBankZone bankHeight
      tableDepth runoff deepMoist).1 = deepLayerDepth totalDepth layers :=
    deepLayerDepth_eq_of_geom totalDepth layers _ hgd
  have hGL2 := @forall_mem_of_geom_eq (fun r a _ => 0 < r ∧ 0 < a) layers _
    hgd (fun M hM => ⟨(hGL M hM).1, (hGL M hM).2.1⟩)
  have hWT := waterTableDepth_conserve totalDepth
    (drainStage dt powf infiltration roadbedInfiltration totalDepth layers
      deepAdjust cutBankZone bankHeight tableDepth runoff deepMoist).1
    deepAdjust
    ((infilStage infiltration roadbedInfiltration totalDepth layers
        deepAdjust cutBankZone bankHeight tableDepth runoff deepMoist).2.1 +
      (drainStage dt powf infiltration roadbedInfiltration totalDepth layers
        deepAdjust cutBankZone bankHeight tableDepth runoff deepMoist).2 /
        (deepLayerDepth totalDepth layers * deepAdjust))
    (((layers.getLast?).map Layer.porosity).getD 0)
    (((layers.getLast?).map Layer.fcap).getD 0)
    hGL2 (by rw [hWeq]; exact hW0)
  rw [hWeq] at hWT
  have hwts : wtdStage dt powf infiltration roadbedInfiltration totalDepth
      layers deepAdjust cutBankZone bankHeight tableDepth runoff deepMoist =
      waterTableDepth totalDepth
        (drainStage dt powf infiltration roadbedInfiltration totalDepth
          layers deepAdjust cutBankZone bankHeight tableDepth runoff
          deepMoist).1 deepAdjust
        ((infilStage infiltration roadbedInfiltration totalDepth layers
            deepAdjust cutBankZone bankHeight tableDepth runoff
            deepMoist).2.1 +
          (drainStage dt powf infiltration roadbedInfiltration totalDepth
            layers deepAdjust cutBankZone bankHeight tableDepth runoff
            deepMoist).2 /
            (deepLayerDepth totalDepth layers * deepAdjust))
        (((layers.getLast?).map Layer.porosity).getD 0)
        (((layers.getLast?).map Layer.fcap).getD 0) := rfl
  rw [← hwts] at hWT
  have hdeep : ((infilStage infiltration roadbedInfiltration totalDepth
      layers deepAdjust cutBankZone bankHeight tableDepth runoff
      deepMoist).2.1 +
      (drainStage dt powf infiltration roadbedInfiltration totalDepth layers
        deepAdjust cutBankZone bankHeight tableDepth runoff deepMoist).2 /
        (deepLayerDepth totalDepth layers * deepAdjust)) *
      (deepLayerDepth totalDepth layers * deepAdjust) =
      (infilStage infiltration roadbedInfiltration totalDepth layers
        deepAdjust cutBankZone bankHeight tableDepth runoff deepMoist).2.1 *
        (deepLayerDepth totalDepth layers * deepAdjust) +
      (drainStage dt powf infiltration roadbedInfiltration totalDepth layers
        deepAdjust cutBankZone bankHeight tableDepth runoff deepMoist).2 := by
    field_simp
  simp only [unsaturatedFlow]
  by_cases hpond : (wtdStage dt powf infiltration roadbedInfiltration
      totalDepth layers deepAdjust cutBankZone bankHeight tableDepth runoff
      deepMoist).2.2 < 0
  · rw [if_pos hpond] at hWT ⊢
    try dsimp only
    linarith
  · rw [if_neg hpond] at hWT ⊢
    try dsimp only
    linarith

/-- Helper: reversing a layer list does not change its total volume. -/
theorem totalVol_reverse (ls : List Layer) :
    totalVol ls.reverse = totalVol ls := by
  unfold totalVol
  rw [List.map_reverse, List.sum_reverse]

/-- Helper: the extraction loop preserves the geometry. -/
theorem extractLoop_geom (totalDepth tableDepth : ℚ) :
    ∀ (ls : List Layer) (sf depth : ℚ),
      ((extractLoop totalDepth tableDepth ls sf depth).1).map geom =
        ls.map geom := by
  intro ls
  induction ls with
  | nil => intro sf depth; rfl
  | cons L rest ih =>
    intro sf depth
    simp only [extractLoop]
    by_cases hg : depth < totalDepth
    · rw [if_pos hg]
      set D1 := (if L.rootDepth < totalDepth - depth then depth + L.rootDepth
                 else totalDepth) with hD1
      set A := (if D1 > tableDepth then
                  (if D1 - tableDepth > L.rootDepth then
                     (L.porosity - L.fcap) * L.rootDepth * L.adjust
                   else (L.porosity - L.fcap) * (D1 - tableDepth) * L.adjust)
                else 0) with hA2
      by_cases hz : sf - (if -sf > A then -A else sf) = 0
      · rw [if_pos hz]
        simp [geom]
      · rw [if_neg hz]
        simp only [List.map]
        rw [ih]
        rfl
    · rw [if_neg hg]

/-- Helper: the extraction loop conserves water: the volume change of the
layers equals the change in `SatFlow`. -/
theorem extractLoop_vol (totalDepth tableDepth : ℚ) :
    ∀ (ls : List Layer) (sf depth : ℚ),
      (∀ M ∈ ls, M.rootDepth * M.adjust ≠ 0) →
      totalVol (extractLoop totalDepth tableDepth ls sf depth).1 =
        totalVol ls + (sf - (extractLoop totalDepth tableDepth ls sf
          depth).2.1) := by
  intro ls
  induction ls with
  | nil => intro sf depth _; simp [extractLoop]
  | cons L rest ih =>
    intro sf depth h
    have hL := h L (List.mem_cons_self _ _)
    have hrest : ∀ M ∈ rest, M.rootDepth * M.adjust ≠ 0 :=
      fun M hM => h M (List.mem_cons_of_mem _ hM)
    simp only [extractLoop]
    by_cases hg : depth < totalDepth
    · rw [if_pos hg]
      set D1 := (if L.rootDepth < totalDepth - depth then depth + L.rootDepth
                 else totalDepth) with hD1
      set A := (if D1 > tableDepth then
                  (if D1 - tableDepth > L.rootDepth then
                     (L.porosity - L.fcap) * L.rootDepth * L.adjust
                   else (L.porosity - L.fcap) * (D1 - tableDepth) * L.adjust)
                else 0) with hA2
      set ex := (if -sf > A then -A else sf) with hex
      have hvol : layerVol { L with
          moist := L.moist + ex / (L.rootDepth * L.adjust) } =
          layerVol L + ex := by
        show (L.moist + ex / (L.rootDepth * L.adjust)) *
          (L.rootDepth * L.adjust) = L.moist * (L.rootDepth * L.adjust) + ex
        field_simp
      by_cases hz : sf - ex = 0
      · rw [if_pos hz]
        try dsimp only
        rw [totalVol_cons, totalVol_cons, hvol, hz]
        ring_nf
        linarith [hz]
      · rw [if_neg hz]
        try dsimp only
        rw [totalVol_cons, totalVol_cons, hvol, ih (sf - ex) D1 hrest]
        ring
    · rw [if_neg hg]
      ring
  
/-- Helper: the bottom-up injection loop conserves water. -/
theorem injectLoopRev_vol :
    ∀ (ls : List Layer) (sf depth : ℚ),
      (∀ M ∈ ls, M.rootDepth * M.adjust ≠ 0) →
      totalVol (injectLoopRev ls sf depth).1 =
        totalVol ls + (sf - (injectLoopRev ls sf depth).2.1) := by
  intro ls
  induction ls with
  | nil => intro sf depth _; simp [injectLoopRev]
  | cons L rest ih =>
    intro sf depth h
    have hL := h L (List.mem_cons_self _ _)
    have hrest : ∀ M ∈ rest, M.rootDepth * M.adjust ≠ 0 :=
      fun M hM => h M (List.mem_cons_of_mem _ hM)
    simp only [injectLoopRev]
    set g := (L.porosity - L.moist) * L.rootDepth * L.adjust with hgd
    set ex := (if sf > g then g else sf) with hex
    have hvol : layerVol { L with
        moist := L.moist + ex / (L.rootDepth * L.adjust) } =
        layerVol L + ex := by
      show (L.moist + ex / (L.rootDepth * L.adjust)) *
        (L.rootDepth * L.adjust) = L.moist * (L.rootDepth * L.adjust) + ex
      field_simp
    by_cases hz : sf - ex = 0
    · rw [if_pos hz]
      try dsimp only
      rw [totalVol_cons, totalVol_cons, hvol, hz]
      ring_nf
      linarith [hz]
    · rw [if_neg hz]
      try dsimp only
      rw [totalVol_cons, totalVol_cons, hvol, ih (sf - ex) (depth + L.rootDepth) hrest]
      ring

/-- Helper: the deep-extraction block conserves water. -/
theorem deepExtractStep_vol (totalDepth tableDepth dPor dFCap deepDepth
    deepAdjust deepMoist sf depth : ℚ) (hW : deepDepth * deepAdjust ≠ 0) :
    (deepExtractStep totalDepth tableDepth dPor dFCap deepDepth deepAdjust
        deepMoist sf depth).1 * (deepDepth * deepAdjust) =
      deepMoist * (deepDepth * deepAdjust) +
        (sf - (deepExtractStep totalDepth tableDepth dPor dFCap deepDepth
          deepAdjust deepMoist sf depth).2.1) := by
  simp only [deepExtractStep]
  by_cases hsf : sf < 0
  · rw [if_pos hsf]
    try dsimp only
    set dEx := (if -sf > deepAvaWater totalDepth tableDepth dPor dFCap
      deepDepth deepAdjust depth then
      -deepAvaWater totalDepth tableDepth dPor dFCap deepDepth deepAdjust
        depth else sf) with hdEx
    field_simp
    try ring
  · rw [if_neg hsf]
    try dsimp only
    ring

/-- Helper: the injection branch conserves water. -/
theorem injectStep_vol (layers : List Layer) (totalDepth dPor deepDepth
    deepAdjust deepMoist sf depth : ℚ) (hW : deepDepth * deepAdjust ≠ 0)
    (hRA : ∀ M ∈ layers, M.rootDepth * M.adjust ≠ 0) :
    totalVol (injectStep layers totalDepth dPor deepDepth deepAdjust
        deepMoist sf depth).1 +
      (injectStep layers totalDepth dPor deepDepth deepAdjust deepMoist sf
        depth).2.1 * (deepDepth * deepAdjust) =
      totalVol layers + deepMoist * (deepDepth * deepAdjust) +
        (sf - (injectStep layers totalDepth dPor deepDepth deepAdjust
          deepMoist sf depth).2.2) := by
  simp only [injectStep]
  by_cases hsf : sf > 0
  · rw [if_pos hsf]
    try dsimp only
    set dEx := (if sf > (dPor - deepMoist) * deepDepth * deepAdjust then
      (dPor - deepMoist) * deepDepth * deepAdjust else sf) with hdEx
    have hdm : (deepMoist + dEx / (deepDepth * deepAdjust)) *
        (deepDepth * deepAdjust) =
        deepMoist * (deepDepth * deepAdjust) + dEx := by
      field_simp
    by_cases hq : sf - dEx > 0
    · rw [if_pos hq]
      try dsimp only
      have hRArev : ∀ M ∈ layers.reverse, M.rootDepth * M.adjust ≠ 0 :=
        fun M hM => hRA M (List.mem_reverse.mp hM)
      have hiv := injectLoopRev_vol layers.reverse (sf - dEx)
        (depth + deepDepth) hRArev
      rw [totalVol_reverse, hiv, totalVol_reverse, hdm]
      ring
    · rw [if_neg hq]
      try dsimp only
      rw [hdm]
      ring
  · rw [if_neg hsf]
    try dsimp only
    ring

/-- Helper: `DistributeSatflow` conserves water on a normally-exiting call:
the volume change plus the runoff change equals the injected saturated flow,
to exact arithmetic. -/
theorem distributeSatflow_conserve (satFlow totalDepth : ℚ)
    (layers : List Layer) (deepAdjust tableDepth runoff deepMoist : ℚ)
    (hRA : ∀ M ∈ layers, M.rootDepth * M.adjust ≠ 0)
    (hW : deepLayerDepth totalDepth layers * deepAdjust ≠ 0)
    (hexit : 0 ≤ (distributeSatflow satFlow totalDepth layers deepAdjust
      tableDepth runoff deepMoist).satFlow) :
    totalVol (distributeSatflow satFlow totalDepth layers deepAdjust
        tableDepth runoff deepMoist).layers +
      (distributeSatflow satFlow totalDepth layers deepAdjust tableDepth
        runoff deepMoist).deepMoist *
        (deepLayerDepth totalDepth layers * deepAdjust) +
      (distributeSatflow satFlow totalDepth layers deepAdjust tableDepth
        runoff deepMoist).runoff =
      totalVol layers +
        deepMoist * (deepLayerDepth totalDepth layers * deepAdjust) + runoff +
        satFlow := by
  simp only [distributeSatflow] at hexit ⊢
  set E := (if satFlow < 0 then
      extractLoop totalDepth tableDepth layers satFlow 0
    else (layers, satFlow, 0)) with hE
  set DE := deepExtractStep totalDepth tableDepth
    (((layers.getLast?).map Layer.porosity).getD 0)
    (((layers.getLast?).map Layer.fcap).getD 0)
    (deepLayerDepth totalDepth layers) deepAdjust deepMoist E.2.1 E.2.2
    with hDE
  set INJ := injectStep E.1 totalDepth
    (((layers.getLast?).map Layer.porosity).getD 0)
    (deepLayerDepth totalDepth layers) deepAdjust DE.1 DE.2.1 DE.2.2
    with hINJ
  have hEvol : totalVol E.1 = totalVol layers + (satFlow - E.2.1) := by
    rw [hE]
    by_cases hsf : satFlow < 0
    · rw [if_pos hsf]
      exact extractLoop_vol totalDepth tableDepth layers satFlow 0 hRA
    · rw [if_neg hsf]
      try dsimp only
      ring
  have hEgeom : (E.1).map geom = layers.map geom := by
    rw [hE]
    by_cases hsf : satFlow < 0
    · rw [if_pos hsf]
      exact extractLoop_geom totalDepth tableDepth layers satFlow 0
    · rw [if_neg hsf]
  have hRA' := @forall_mem_of_geom_eq (fun r a _ => r * a ≠ 0) layers _
    hEgeom hRA
  have hDEvol := deepExtractStep_vol totalDepth tableDepth
    (((layers.getLast?).map Layer.porosity).getD 0)
    (((layers.getLast?).map Layer.fcap).getD 0)
    (deepLayerDepth totalDepth layers) deepAdjust deepMoist E.2.1 E.2.2 hW
  rw [← hDE] at hDEvol
  have hINJvol := injectStep_vol E.1 totalDepth
    (((layers.getLast?).map Layer.porosity).getD 0)
    (deepLayerDepth totalDepth layers) deepAdjust DE.1 DE.2.1 DE.2.2 hW hRA'
  rw [← hINJ] at hINJvol
  by_cases hpos : INJ.2.2 > 0
  · rw [if_pos hpos]
    linarith
  · rw [if_neg hpos]
    linarith

/-- C1 (counterexample to the claim as stated).  A well-formed one-layer
column, water table below the cut (`3/2 > 1`), `CutBankZone = -1` and
roadbed infiltration `1/10`: lines 138-145 of `UnsaturatedFlow.c` have no
branch for a negative cut-bank index, so the roadbed water is added nowhere;
the final volume-plus-runoff falls short of the injected total by `1/10`
(left side `2/5`, right side `1/2`). -/
theorem unsaturatedFlow_mass_leak_neg_cutBankZone :
    ¬ (totalVol (unsaturatedFlow 1 (fun _ _ => 0) 0 (1/10) 0 2
          [⟨1, 0, 1, 1/2, 1/5, 1, 1, 1/5, 0⟩] 1 (-1) 1 (3/2) 0 (1/5)
          0).layers +
        (unsaturatedFlow 1 (fun _ _ => 0) 0 (1/10) 0 2
          [⟨1, 0, 1, 1/2, 1/5, 1, 1, 1/5, 0⟩] 1 (-1) 1 (3/2) 0 (1/5)
          0).deepMoist *
          (deepLayerDepth 2 [⟨1, 0, 1, 1/2, 1/5, 1, 1, 1/5, 0⟩] * 1) +
        (unsaturatedFlow 1 (fun _ _ => 0) 0 (1/10) 0 2
          [⟨1, 0, 1, 1/2, 1/5, 1, 1, 1/5, 0⟩] 1 (-1) 1 (3/2) 0 (1/5)
          0).runoff =
      totalVol [⟨1, 0, 1, 1/2, 1/5, 1, 1, 1/5, 0⟩] +
        (1/5) * (deepLayerDepth 2 [⟨1, 0, 1, 1/2, 1/5, 1, 1, 1/5, 0⟩] * 1) +
        0 + (0 + 1/10 + 0)) := by
  norm_num [unsaturatedFlow, wtdStage, drainStage, infilStage, roadbedStep,
    surfaceStep, addVolToLayer, drainLoop, drainLayer, percPush, percClamp,
    percAvg, waterTableDepth, capUp, satThickness, deepLayerDepth, totalVol,
    layerVol]

/-- C1 (amended).  Mass conservation holds for both routines once the
cut-bank index is required to address an existing layer or the deep
reservoir (`0 ≤ CutBankZone ≤ NSoilLayers`, excluding the silent roadbed
drop of the counterexample) and, for `DistributeSatflow`, the call exits
normally (final flow non-negative, i.e. the assert does not fire): the
change in total moisture volume (explicit layers weighted by
`RootDepth*Adjust`, deep reservoir weighted by `DeepLayerDepth*Adjust[N]`)
plus the change of the runoff accumulator equals the injected water — for
`UnsaturatedFlow` the surface plus roadbed infiltration (its `SatFlow`
parameter is never read by the body), for `DistributeSatflow` the
saturated-zone flow — as exact identities over `ℚ`. -/
theorem mass_conservation_unsat_and_distsat (dt : ℚ) (powf : ℚ → ℚ → ℚ)
    (infiltration roadbedInfiltration satFlow totalDepth : ℚ)
    (layers : List Layer) (deepAdjust : ℚ) (cutBankZone : ℤ)
    (bankHeight tableDepth runoff deepMoist : ℚ) (infiltOption : ℤ)
    (satFlow2 tableDepth2 runoff2 deepMoist2 : ℚ)
    (hGL : ∀ M ∈ layers, 0 < M.rootDepth ∧ 0 < M.adjust ∧ 0 < M.percArea)
    (hne : layers ≠ [])
    (hdd : 0 < deepLayerDepth totalDepth layers) (hda : 0 < deepAdjust)
    (hcb : cutBankZone = (layers.length : ℤ) ∨
      (0 ≤ cutBankZone ∧ cutBankZone < (layers.length : ℤ)))
    (hexit : 0 ≤ (distributeSatflow satFlow2 totalDepth layers deepAdjust
      tableDepth2 runoff2 deepMoist2).satFlow) :
    (totalVol (unsaturatedFlow dt powf infiltration roadbedInfiltration
        satFlow totalDepth layers deepAdjust cutBankZone bankHeight
        tableDepth runoff deepMoist infiltOption).layers +
      (unsaturatedFlow dt powf infiltration roadbedInfiltration satFlow
        totalDepth layers deepAdjust cutBankZone bankHeight tableDepth runoff
        deepMoist infiltOption).deepMoist *
        (deepLayerDepth totalDepth layers * deepAdjust) +
      (unsaturatedFlow dt powf infiltration roadbedInfiltration satFlow
        totalDepth layers deepAdjust cutBankZone bankHeight tableDepth runoff
        deepMoist infiltOption).runoff =
      totalVol layers +
        deepMoist * (deepLayerDepth totalDepth layers * deepAdjust) + runoff +
        infiltration + roadbedInfiltration) ∧
    (totalVol (distributeSatflow satFlow2 totalDepth layers deepAdjust
        tableDepth2 runoff2 deepMoist2).layers +
      (distributeSatflow satFlow2 totalDepth layers deepAdjust tableDepth2
        runoff2 deepMoist2).deepMoist *
        (deepLayerDepth totalDepth layers * deepAdjust) +
      (distributeSatflow satFlow2 totalDepth layers deepAdjust tableDepth2
        runoff2 deepMoist2).runoff =
      totalVol layers +
        deepMoist2 * (deepLayerDepth totalDepth layers * deepAdjust) +
        runoff2 + satFlow2) :=
  ⟨unsaturatedFlow_conserve dt powf infiltration roadbedInfiltration satFlow
      totalDepth layers deepAdjust cutBankZone bankHeight tableDepth runoff
      deepMoist infiltOption hGL hne hdd hda hcb,
    distributeSatflow_conserve satFlow2 totalDepth layers deepAdjust
      tableDepth2 runoff2 deepMoist2
      (fun M hM => (mul_pos (hGL M hM).1 (hGL M hM).2.1).ne')
      (mul_pos hdd hda).ne' hexit⟩

/-- C1 witness: a concrete one-layer column (cut bank reaching the deep
reservoir, roadbed infiltration `1/10`) and a concrete injection call
(`SatFlow = 1/50`) that exits normally; both balances hold exactly. -/
theorem mass_conservation_unsat_and_distsat_witness :
    (0 : ℚ) ≤ (distributeSatflow (1/50) 2 [⟨1, 0, 1, 1/2, 1/5, 1, 1, 1/5, 0⟩]
        1 (3/2) 0 (1/5)).satFlow ∧
    ((totalVol (unsaturatedFlow 1 (fun _ _ => 0) 0 (1/10) 0 2
        [⟨1, 0, 1, 1/2, 1/5, 1, 1, 1/5, 0⟩] 1 1 1 (3/2) 0 (1/5) 0).layers +
      (unsaturatedFlow 1 (fun _ _ => 0) 0 (1/10) 0 2
        [⟨1, 0, 1, 1/2, 1/5, 1, 1, 1/5, 0⟩] 1 1 1 (3/2) 0 (1/5)
        0).deepMoist *
        (deepLayerDepth 2 [⟨1, 0, 1, 1/2, 1/5, 1, 1, 1/5, 0⟩] * 1) +
      (unsaturatedFlow 1 (fun _ _ => 0) 0 (1/10) 0 2
        [⟨1, 0, 1, 1/2, 1/5, 1, 1, 1/5, 0⟩] 1 1 1 (3/2) 0 (1/5) 0).runoff =
      totalVol [⟨1, 0, 1, 1/2, 1/5, 1, 1, 1/5, 0⟩] +
        (1/5) * (deepLayerDepth 2 [⟨1, 0, 1, 1/2, 1/5, 1, 1, 1/5, 0⟩] * 1) +
        0 + 0 + 1/10) ∧
    (totalVol (distributeSatflow (1/50) 2 [⟨1, 0, 1, 1/2, 1/5, 1, 1, 1/5, 0⟩]
        1 (3/2) 0 (1/5)).layers +
      (distributeSatflow (1/50) 2 [⟨1, 0, 1, 1/2, 1/5, 1, 1, 1/5, 0⟩] 1
        (3/2) 0 (1/5)).deepMoist *
        (deepLayerDepth 2 [⟨1, 0, 1, 1/2, 1/5, 1, 1, 1/5, 0⟩] * 1) +
      (distributeSatflow (1/50) 2 [⟨1, 0, 1, 1/2, 1/5, 1, 1, 1/5, 0⟩] 1
        (3/2) 0 (1/5)).runoff =
      totalVol [⟨1, 0, 1, 1/2, 1/5, 1, 1, 1/5, 0⟩] +
        (1/5) * (deepLayerDepth 2 [⟨1, 0, 1, 1/2, 1/5, 1, 1, 1/5, 0⟩] * 1) +
        0 + 1/50)) :=
  ⟨by norm_num [distributeSatflow, deepExtractStep, injectStep, extractLoop,
      deepAvaWater, deepLayerDepth, injectLoopRev],
    mass_conservation_unsat_and_distsat 1 (fun _ _ => 0) 0 (1/10) 0 2
      [⟨1, 0, 1, 1/2, 1/5, 1, 1, 1/5, 0⟩] 1 1 1 (3/2) 0 (1/5) 0
      (1/50) (3/2) 0 (1/5)
      (by intro M hM; rw [List.mem_singleton.mp hM]; norm_num)
      (by norm_num)
      (by norm_num [deepLayerDepth])
      (by norm_num)
      (Or.inl (by norm_num))
      (by norm_num [distributeSatflow, deepExtractStep, injectStep,
        extractLoop, deepAvaWater, deepLayerDepth, injectLoopRev])⟩
